import Mathlib

/-!
Verification of the Pinniped Supervisor FederationDomain watcher controller
(`federationDomainWatcherController.Sync`, `crossFederationDomainConfigValidator`,
`updateStatus`, `hadErrorCondition`) and of the `/oauth2/authorize` handler
(`shouldShowIDPChooser`, `generateUpstreamAuthorizeRequestState`, `readCSRFCookie`,
`addCSRFSetCookieHeader`), as a shallow embedding in Lean 4.

Machine strings are Lean `String`s; Kubernetes objects are Lean structures carrying
exactly the fields the embedded code reads; external collaborators (the CEL engine,
the symmetric codecs, the fosite OAuth2 library, the Kubernetes apiserver) are
modelled as explicit inputs, as the source consumes them through narrow interfaces.
-/

namespace Pinniped

/-! ## Condition data model

Mirrors `configv1alpha1.Condition`: status is one of the strings "True", "False",
"Unknown"; `lastTransitionTime` is modelled as a `Nat` timestamp. -/

structure Condition where
  type : String
  status : String
  reason : String
  message : String
  observedGeneration : Nat := 0
  lastTransitionTime : Nat := 0
deriving DecidableEq, Repr

def conditionTrue : String := "True"

def conditionFalse : String := "False"

def conditionUnknown : String := "Unknown"

/-! Constants from the top of the controller source file. -/

def typeReady : String := "Ready"

def typeIssuerURLValid : String := "IssuerURLValid"

def typeOneTLSSecretPerIssuerHostname : String := "OneTLSSecretPerIssuerHostname"

def typeIssuerIsUnique : String := "IssuerIsUnique"

def typeIdentityProvidersFound : String := "IdentityProvidersFound"

def reasonSuccess : String := "Success"

def reasonNotReady : String := "NotReady"

def reasonUnableToValidate : String := "UnableToValidate"

def reasonInvalidIssuerURL : String := "InvalidIssuerURL"

def reasonDuplicateIssuer : String := "DuplicateIssuer"

def reasonDifferentSecretRefsFound : String := "DifferentSecretRefsFound"

def reasonLegacyConfigurationSuccess : String := "LegacyConfigurationSuccess"

def reasonLegacyConfigurationIdentityProviderNotFound : String :=
  "LegacyConfigurationIdentityProviderNotFound"

def reasonIdentityProvidersObjectRefsNotFound : String := "IdentityProvidersObjectRefsNotFound"

def reasonIdentityProviderNotSpecified : String := "IdentityProviderNotSpecified"

def phaseReady : String := "Ready"

def phaseError : String := "Error"

/-! ## Identity transformation pipeline

Modelled from the spec: the CEL transform engine (`celtransformer`, `idtransform`)
is an external collaborator whose sources are not part of the extracted slice.
Per the spec (§4.1 and §9 "CEL sandboxing"), a compiled expression is one of
`username/v1` (string-valued, replaces the username), `groups/v1` (string-list
valued, replaces the groups) or `policy/v1` (boolean; when false the pipeline
rejects with the configured message or a default). Any conforming expression
evaluator may be substituted, so a compiled expression is represented directly
by its semantic function. -/

inductive CompiledTransform where
  | usernameT (f : String → List String → String)
  | groupsT (f : String → List String → List String)
  | policyT (f : String → List String → Bool) (rejectedAuthenticationMessage : String)

structure TransformResult where
  authenticationAllowed : Bool
  rejectedAuthenticationMessage : String
  username : String
  groups : List String
deriving Repr

/-- Modelled from the spec: the default rejection message used by `policy/v1`
transforms when no message is configured (§4.1 "configured message or default"). -/
def defaultPolicyRejectedMessage : String := "Authentication was rejected by a configured policy"

/-- Modelled from the spec: deterministic pipeline evaluation (§4.1). Transforms run
in order; a `policy/v1` expression returning false stops evaluation and rejects. -/
def evaluatePipeline : List CompiledTransform → String → List String → TransformResult
  | [], u, g => { authenticationAllowed := true, rejectedAuthenticationMessage := "",
                  username := u, groups := g }
  | .usernameT f :: rest, u, g => evaluatePipeline rest (f u g) g
  | .groupsT f :: rest, u, g => evaluatePipeline rest u (f u g)
  | .policyT f msg :: rest, u, g =>
      if f u g then evaluatePipeline rest u g
      else { authenticationAllowed := false,
             rejectedAuthenticationMessage := if msg = "" then defaultPolicyRejectedMessage else msg,
             username := u, groups := g }

/-! ## FederationDomain custom resource (input CR) -/

structure Expects where
  rejected : Bool
  message : String
  username : String
  groups : List String

structure TransformExample where
  username : String
  groups : List String
  expects : Expects

/-- The `Transforms` block of an `IdentityProviderRef`. The declared constants and
expression strings are consumed only by CEL compilation (external engine); the
embedding therefore carries each declared expression directly in compiled form. -/
structure TransformsSpec where
  expressions : List CompiledTransform
  examples : List TransformExample

structure ObjectRef where
  kind : String
  name : String

structure IdentityProviderRef where
  displayName : String
  objectRef : ObjectRef
  transforms : TransformsSpec

/-- The result of Go's `url.Parse` on an issuer string: the fields the controller
reads (`Scheme`, `Host` which may include a port, `Path`). -/
structure ParsedURL where
  scheme : String
  host : String
  path : String
deriving DecidableEq, Repr

structure FDStatus where
  phase : String
  conditions : List Condition
deriving DecidableEq, Repr

/-- A FederationDomain custom resource. `parsedIssuer` is the (deterministic) result
of `url.Parse` applied to `spec.issuer`: the controller parses the same string in
`newCrossFederationDomainConfigValidator`, in `Validate` and in the issuer
constructors, always with the same outcome, so the embedding carries the parse
result alongside the raw string. `tls` is `spec.tls.secretName` when `spec.tls`
is present. -/
structure FederationDomain where
  name : String
  namespaceName : String
  generation : Nat
  issuer : String
  parsedIssuer : Option ParsedURL
  tls : Option String
  identityProviders : List IdentityProviderRef
  status : FDStatus

/-! ## Cross-FederationDomain configuration validator -/

/-- ASCII lowercasing of one character (models Go's `strings.ToLower` on the
ASCII hostnames handled here). -/
def asciiToLowerChar (c : Char) : Char :=
  if 'A' ≤ c && c ≤ 'Z' then Char.ofNat (c.toNat + 32) else c

def asciiToLower (s : String) : String :=
  String.mk (s.data.map asciiToLowerChar)

def takeUntilColon : List Char → List Char
  | [] => []
  | c :: rest => if c = ':' then [] else c :: takeUntilColon rest

/-- Modelled from the spec: `lowercaseHostWithoutPort` (its definition lives outside
the extracted slice; the spec defines the hostname key as `lower(host-without-port)`).
The port suffix after `:` is dropped and the remainder lowercased. -/
def lowercaseHostWithoutPort (u : ParsedURL) : String :=
  asciiToLower (String.mk (takeUntilColon u.host.data))

def issuerURLToHostnameKey (u : ParsedURL) : String :=
  lowercaseHostWithoutPort u

def issuerURLToIssuerKey (u : ParsedURL) : String :=
  u.scheme ++ "://" ++ asciiToLower u.host ++ u.path

/-- The `issuerCounts` map built by `newCrossFederationDomainConfigValidator`,
read back at one key: how many FederationDomains (among those whose `spec.issuer`
parses) share the given issuer key. URL parse errors are skipped, as in the source. -/
def issuerCount (federationDomains : List FederationDomain) (key : String) : Nat :=
  (federationDomains.filterMap (fun d => d.parsedIssuer)).countP
    (fun u => issuerURLToIssuerKey u == key)

/-- The `uniqueSecretNamesPerIssuerAddress` map built by
`newCrossFederationDomainConfigValidator`, read back at one hostname key: the set
(deduplicated list) of TLS secret names declared by FederationDomains whose parsed
`spec.issuer` has the given hostname key. Domains without `spec.tls` contribute
nothing, as in the source. -/
def secretNamesForIssuerAddress (federationDomains : List FederationDomain)
    (hostnameKey : String) : List String :=
  (federationDomains.filterMap (fun d =>
    match d.parsedIssuer, d.tls with
    | some u, some s => if issuerURLToHostnameKey u == hostnameKey then some s else none
    | _, _ => none)).dedup

/-! Conditions appended by `crossFederationDomainConfigValidator.Validate`. -/

def unknownIssuerIsUniqueCondition : Condition :=
  { type := typeIssuerIsUnique, status := conditionUnknown, reason := reasonUnableToValidate,
    message := "unable to check if spec.issuer is unique among all FederationDomains because URL cannot be parsed" }

def unknownTLSSecretCondition : Condition :=
  { type := typeOneTLSSecretPerIssuerHostname, status := conditionUnknown,
    reason := reasonUnableToValidate,
    message := "unable to check if all FederationDomains are using the same TLS secret when using the same hostname in the spec.issuer URL because URL cannot be parsed" }

def duplicateIssuerCondition : Condition :=
  { type := typeIssuerIsUnique, status := conditionFalse, reason := reasonDuplicateIssuer,
    message := "multiple FederationDomains have the same spec.issuer URL: these URLs must be unique (can use different hosts or paths)" }

def uniqueIssuerCondition : Condition :=
  { type := typeIssuerIsUnique, status := conditionTrue, reason := reasonSuccess,
    message := "spec.issuer is unique among all FederationDomains" }

def differentSecretRefsCondition : Condition :=
  { type := typeOneTLSSecretPerIssuerHostname, status := conditionFalse,
    reason := reasonDifferentSecretRefsFound,
    message := "when different FederationDomains are using the same hostname in the spec.issuer URL then they must also use the same TLS secretRef: different secretRefs found" }

def sameSecretRefCondition : Condition :=
  { type := typeOneTLSSecretPerIssuerHostname, status := conditionTrue, reason := reasonSuccess,
    message := "all FederationDomains are using the same TLS secret when using the same hostname in the spec.issuer URL" }

/-- `crossFederationDomainConfigValidator.Validate`: the two conditions appended for
one FederationDomain, computed against the whole reconcile snapshot
`federationDomains` (the validator is built from the full list in `Sync`). -/
def crossDomainValidate (federationDomains : List FederationDomain)
    (d : FederationDomain) : List Condition :=
  match d.parsedIssuer with
  | none => [unknownIssuerIsUniqueCondition, unknownTLSSecretCondition]
  | some issuerURL =>
      (if issuerCount federationDomains (issuerURLToIssuerKey issuerURL) > 1 then
        [duplicateIssuerCondition]
      else
        [uniqueIssuerCondition]) ++
      (if (secretNamesForIssuerAddress federationDomains (issuerURLToHostnameKey issuerURL)).length > 1 then
        [differentSecretRefsCondition]
      else
        [sameSecretRefCondition])

/-! ## Identity provider resolution (the IDP part of `Sync`) -/

/-- An identity provider custom resource as seen through its informer lister: the
controller consumes only `metadata.name`, `metadata.namespace` and `metadata.uid`. -/
structure IdpResource where
  name : String
  namespaceName : String
  uid : String
deriving DecidableEq, Repr

/-- The informer caches of the three watched IDP custom resource types. -/
structure IdpEnv where
  oidcIdentityProviders : List IdpResource
  ldapIdentityProviders : List IdpResource
  activeDirectoryIdentityProviders : List IdpResource

/-- `federationdomainproviders.FederationDomainIdentityProvider`. -/
structure FederationDomainIdentityProvider where
  displayName : String
  uid : String
  transforms : List CompiledTransform

def idpCRsCount (env : IdpEnv) : Nat :=
  env.oidcIdentityProviders.length + env.ldapIdentityProviders.length +
    env.activeDirectoryIdentityProviders.length

def allIdpResources (env : IdpEnv) : List IdpResource :=
  env.oidcIdentityProviders ++ env.ldapIdentityProviders ++ env.activeDirectoryIdentityProviders

def firstIdp (l : List IdpResource) : IdpResource :=
  l.headD { name := "", namespaceName := "", uid := "" }

/-- The backwards-compatibility default IDP built by `Sync` when
`spec.identityProviders` is empty and exactly one IDP resource exists: the switch
over the three listers, defaulting the display name to the resource name and using
an empty transformation pipeline (`idtransform.NewTransformationPipeline()`). -/
def legacyDefaultIDP (env : IdpEnv) : FederationDomainIdentityProvider :=
  if env.oidcIdentityProviders.length = 1 then
    { displayName := (firstIdp env.oidcIdentityProviders).name,
      uid := (firstIdp env.oidcIdentityProviders).uid, transforms := [] }
  else if env.ldapIdentityProviders.length = 1 then
    { displayName := (firstIdp env.ldapIdentityProviders).name,
      uid := (firstIdp env.ldapIdentityProviders).uid, transforms := [] }
  else if env.activeDirectoryIdentityProviders.length = 1 then
    { displayName := (firstIdp env.activeDirectoryIdentityProviders).name,
      uid := (firstIdp env.activeDirectoryIdentityProviders).uid, transforms := [] }
  else
    { displayName := "", uid := "", transforms := [] }

def quoted (s : String) : String := "\"" ++ s ++ "\""

def legacySuccessCondition (foundIDPName : String) : Condition :=
  { type := typeIdentityProvidersFound, status := conditionTrue,
    reason := reasonLegacyConfigurationSuccess,
    message := "no resources were specified by .spec.identityProviders[].objectRef but exactly one identity provider resource has been found: using " ++ quoted foundIDPName ++ " as identity provider: please explicitly list identity providers in .spec.identityProviders (this legacy configuration mode may be removed in a future version of Pinniped)" }

/-- The condition for the `idpCRsCount > 1` legacy case. (The source formats the
count with the `%q` verb; the embedding renders it as a quoted decimal, which is
immaterial to every property proved below.) -/
def identityProviderNotSpecifiedCondition (idpCRsCountValue : Nat) : Condition :=
  { type := typeIdentityProvidersFound, status := conditionFalse,
    reason := reasonIdentityProviderNotSpecified,
    message := "no resources were specified by .spec.identityProviders[].objectRef and " ++ quoted (toString idpCRsCountValue) ++ " identity provider resources have been found: please update .spec.identityProviders to specify which identity providers this federation domain should use" }

def legacyNotFoundCondition : Condition :=
  { type := typeIdentityProvidersFound, status := conditionFalse,
    reason := reasonLegacyConfigurationIdentityProviderNotFound,
    message := "no resources were specified by .spec.identityProviders[].objectRef and no identity provider resources have been found: please create an identity provider resource" }

/-- The legacy (backwards compatibility) branch of `Sync`, entered when the
FederationDomain lists no identity providers: the switch on `idpCRsCount`. Returns
the default IDP (when exactly one resource exists) and the
`IdentityProvidersFound` condition appended by that switch. -/
def legacyResolution (env : IdpEnv) :
    Option FederationDomainIdentityProvider × List Condition :=
  if idpCRsCount env = 1 then
    let dflt := legacyDefaultIDP env
    (some dflt, [legacySuccessCondition dflt.displayName])
  else if idpCRsCount env > 1 then
    (none, [identityProviderNotSpecifiedCondition (idpCRsCount env)])
  else
    (none, [legacyNotFoundCondition])

def lookupIdp (l : List IdpResource) (ns name : String) : Option IdpResource :=
  l.find? (fun r => r.namespaceName == ns && r.name == name)

/-- The per-ref lookup switch of `Sync` on `idp.ObjectRef.Kind`, returning the
resolved resource UID (the Go zero value `""` when unresolved) and whether the ref
was recorded in `idpNotFoundIndices` (an unknown kind is not recorded, matching the
source's empty `default` branch). -/
def resolveIdpRef (env : IdpEnv) (ns : String) (ref : IdentityProviderRef) :
    String × Bool :=
  match ref.objectRef.kind with
  | "LDAPIdentityProvider" =>
      match lookupIdp env.ldapIdentityProviders ns ref.objectRef.name with
      | some r => (r.uid, false)
      | none => ("", true)
  | "ActiveDirectoryIdentityProvider" =>
      match lookupIdp env.activeDirectoryIdentityProviders ns ref.objectRef.name with
      | some r => (r.uid, false)
      | none => ("", true)
  | "OIDCIdentityProvider" =>
      match lookupIdp env.oidcIdentityProviders ns ref.objectRef.name with
      | some r => (r.uid, false)
      | none => ("", true)
  | _ => ("", false)

/-- The entry appended to `federationDomainIdentityProviders` for one ref: display
name from the spec, UID from the lookup, pipeline from compiling the declared
expressions in order (`AppendTransformation` per expression). -/
def fdIdentityProviderOfRef (env : IdpEnv) (ns : String) (ref : IdentityProviderRef) :
    FederationDomainIdentityProvider :=
  { displayName := ref.displayName, uid := (resolveIdpRef env ns ref).1,
    transforms := ref.transforms.expressions }

def domainFDIdentityProviders (env : IdpEnv) (d : FederationDomain) :
    List FederationDomainIdentityProvider :=
  d.identityProviders.map (fdIdentityProviderOfRef env d.namespaceName)

/-- `idpNotFoundIndices`: the indices (in spec order) of refs that did not resolve. -/
def idpNotFoundIndices (env : IdpEnv) (ns : String)
    (refs : List IdentityProviderRef) : List Nat :=
  refs.enum.filterMap (fun p => if (resolveIdpRef env ns p.2).2 then some p.1 else none)

def idpNotFoundMessage (refs : List IdentityProviderRef) (indices : List Nat) : String :=
  ".spec.identityProviders[].objectRef identifies resource(s) that cannot be found: " ++
    String.intercalate ", " (indices.map (fun i =>
      "IDP with displayName " ++ quoted ((refs.getD i
        { displayName := "", objectRef := { kind := "", name := "" },
          transforms := { expressions := [], examples := [] } }).displayName) ++
      " at index " ++ toString i))

def idpRefsNotFoundCondition (refs : List IdentityProviderRef) (indices : List Nat) :
    Condition :=
  { type := typeIdentityProvidersFound, status := conditionFalse,
    reason := reasonIdentityProvidersObjectRefsNotFound,
    message := idpNotFoundMessage refs indices }

def idpRefsFoundCondition : Condition :=
  { type := typeIdentityProvidersFound, status := conditionTrue, reason := reasonSuccess,
    message := "the resources specified by .spec.identityProviders[].objectRef were found" }

/-- The `IdentityProvidersFound` condition(s) appended for one FederationDomain:
the legacy switch (only when `spec.identityProviders` is empty), then the
not-found/success logic after the explicit ref loop. At most one condition is ever
produced. -/
def identityProvidersConditions (env : IdpEnv) (d : FederationDomain) : List Condition :=
  (if d.identityProviders.isEmpty then (legacyResolution env).2 else []) ++
  (let indices := idpNotFoundIndices env d.namespaceName d.identityProviders
   if indices ≠ [] then
     [idpRefsNotFoundCondition d.identityProviders indices]
   else if !d.identityProviders.isEmpty then
     [idpRefsFoundCondition]
   else
     [])

def domainDefaultIDP (env : IdpEnv) (d : FederationDomain) :
    Option FederationDomainIdentityProvider :=
  if d.identityProviders.isEmpty then (legacyResolution env).1 else none

/-! ## Transformation examples (dry runs) -/

/-- `stringSlicesEqual` from the source. -/
def stringSlicesEqual (a : List String) (b : List String) : Bool :=
  if a.length ≠ b.length then false
  else (a.zip b).all (fun p => p.1 == p.2)

inductive ExampleWarningKind where
  | expectedRejectionButAllowed
  | expectedAllowedButRejected
  | wrongRejectionMessage
  | wrongUsername
  | wrongGroups
deriving DecidableEq, Repr

/-- The example dry-run chain of `Sync` for one example tuple: evaluates the
compiled pipeline on the example inputs and reports each failure as a warning
(`plog.Warning` in the source); no condition is produced here. -/
def exampleWarnings (pipeline : List CompiledTransform) (e : TransformExample) :
    List ExampleWarningKind :=
  let result := evaluatePipeline pipeline e.username e.groups
  let resultWasAuthRejected := !result.authenticationAllowed
  if e.expects.rejected && !resultWasAuthRejected then
    [.expectedRejectionButAllowed]
  else if !e.expects.rejected && resultWasAuthRejected then
    [.expectedAllowedButRejected]
  else if e.expects.rejected && resultWasAuthRejected &&
      e.expects.message != result.rejectedAuthenticationMessage then
    [.wrongRejectionMessage]
  else if result.authenticationAllowed then
    (if e.expects.username != result.username then [.wrongUsername] else []) ++
    (if !stringSlicesEqual e.expects.groups result.groups then [.wrongGroups] else [])
  else
    []

/-- All example warnings produced while processing one FederationDomain (over every
ref and every example, in order). -/
def domainExampleWarnings (d : FederationDomain) : List ExampleWarningKind :=
  d.identityProviders.flatMap (fun ref =>
    ref.transforms.examples.flatMap (exampleWarnings ref.transforms.expressions))

/-! ## FederationDomainIssuer construction -/

/-- `federationdomainproviders.FederationDomainIssuer` as consumed by this
controller: the issuer URL string plus either the default IDP (backwards
compatibility) or the explicit resolved IDP list. -/
structure FederationDomainIssuer where
  issuer : String
  defaultIDP : Option FederationDomainIdentityProvider
  identityProviders : List FederationDomainIdentityProvider

/-- Modelled from the spec: the issuer URL validation performed by the
`FederationDomainIssuer` constructors (their source lives outside the extracted
slice; the source comments on `Sync` record that "the FederationDomainIssuer
constructors only validate the Issuer URL"). Per the spec (§3), the URL must
parse, be absolute with scheme `https`, and have a non-empty host. -/
def validIssuerURL (parsed : Option ParsedURL) : Bool :=
  match parsed with
  | none => false
  | some u => u.scheme == "https" && u.host != ""

/-- Modelled from the spec: `NewFederationDomainIssuer`. -/
def newFederationDomainIssuer (d : FederationDomain)
    (idps : List FederationDomainIdentityProvider) :
    Except String FederationDomainIssuer :=
  if validIssuerURL d.parsedIssuer then
    .ok { issuer := d.issuer, defaultIDP := none, identityProviders := idps }
  else
    .error ("could not create provider: invalid issuer URL: " ++ d.issuer)

/-- Modelled from the spec: `NewFederationDomainIssuerWithDefaultIDP`. -/
def newFederationDomainIssuerWithDefaultIDP (d : FederationDomain)
    (dflt : FederationDomainIdentityProvider) :
    Except String FederationDomainIssuer :=
  if validIssuerURL d.parsedIssuer then
    .ok { issuer := d.issuer, defaultIDP := some dflt, identityProviders := [] }
  else
    .error ("could not create provider: invalid issuer URL: " ++ d.issuer)

/-- The issuer-construction step of `Sync`: the backwards-compatibility constructor
when a default IDP was adopted, the plain constructor otherwise. -/
def domainIssuerResult (env : IdpEnv) (d : FederationDomain) :
    Except String FederationDomainIssuer :=
  match domainDefaultIDP env d with
  | some dflt => newFederationDomainIssuerWithDefaultIDP d dflt
  | none => newFederationDomainIssuer d (domainFDIdentityProviders env d)

def invalidIssuerURLCondition (errMessage : String) : Condition :=
  { type := typeIssuerURLValid, status := conditionFalse, reason := reasonInvalidIssuerURL,
    message := errMessage }

def validIssuerURLCondition : Condition :=
  { type := typeIssuerURLValid, status := conditionTrue, reason := reasonSuccess,
    message := "spec.issuer is a valid URL" }

def issuerURLValidCondition (env : IdpEnv) (d : FederationDomain) : Condition :=
  match domainIssuerResult env d with
  | .error e => invalidIssuerURLCondition e
  | .ok _ => validIssuerURLCondition

/-- All conditions computed for one FederationDomain during one reconcile of
`Sync`, in append order: cross-domain validation, identity provider resolution,
issuer URL validation. (The `Ready` summary condition is appended separately
inside `updateStatus`.) -/
def computeConditions (env : IdpEnv) (federationDomains : List FederationDomain)
    (d : FederationDomain) : List Condition :=
  crossDomainValidate federationDomains d ++
  identityProvidersConditions env d ++
  [issuerURLValidCondition env d]

/-- `hadErrorCondition` from the source: some condition has a non-True status. -/
def hadErrorCondition (conditions : List Condition) : Bool :=
  conditions.any (fun c => c.status != conditionTrue)

/-! ## `updateStatus`: phase, Ready condition, merge, and the write-skip guard -/

def notReadyCondition : Condition :=
  { type := typeReady, status := conditionFalse, reason := reasonNotReady,
    message := "the FederationDomain is not ready: see other conditions for details" }

def readyTrueCondition (issuer : String) : Condition :=
  { type := typeReady, status := conditionTrue, reason := reasonSuccess,
    message := "the FederationDomain is ready and its endpoints are available: the discovery endpoint is " ++ issuer ++ "/.well-known/openid-configuration" }

/-- The `Ready` summary condition appended by `updateStatus`. -/
def readyCondition (conditions : List Condition) (issuer : String) : Condition :=
  if hadErrorCondition conditions then notReadyCondition else readyTrueCondition issuer

/-- All conditions written to status for one domain in one reconcile (before the
merge): the computed conditions followed by the `Ready` summary. -/
def conditionsWithReady (env : IdpEnv) (federationDomains : List FederationDomain)
    (d : FederationDomain) : List Condition :=
  computeConditions env federationDomains d ++
    [readyCondition (computeConditions env federationDomains d) d.issuer]

/-- Modelled from the spec: `conditionsutil.MergeConfigConditions` (its source lives
outside the extracted slice). Per the spec (§4.2 step 4), the merge implements
semantic equality "ignoring `lastTransitionTime` when the status/reason/message
match": each newly computed condition keeps the observed condition's
`lastTransitionTime` when an observed condition of the same type has the same
status, reason and message, and takes the current time otherwise; the observed
generation is stamped on every condition. -/
def mergeOneCondition (generation : Nat) (oldConditions : List Condition) (now : Nat)
    (c : Condition) : Condition :=
  match oldConditions.find? (fun o => o.type == c.type) with
  | some o =>
      if o.status == c.status && o.reason == c.reason && o.message == c.message then
        { c with observedGeneration := generation, lastTransitionTime := o.lastTransitionTime }
      else
        { c with observedGeneration := generation, lastTransitionTime := now }
  | none => { c with observedGeneration := generation, lastTransitionTime := now }

def mergeConfigConditions (newConditions : List Condition) (generation : Nat)
    (oldConditions : List Condition) (now : Nat) : List Condition :=
  newConditions.map (mergeOneCondition generation oldConditions now)

/-- The status object computed by `updateStatus` for the deep-copied domain:
phase from `hadErrorCondition`, conditions merged into the observed ones. -/
def computedStatus (env : IdpEnv) (federationDomains : List FederationDomain)
    (d : FederationDomain) (now : Nat) : FDStatus :=
  { phase := if hadErrorCondition (computeConditions env federationDomains d) then phaseError
             else phaseReady,
    conditions := mergeConfigConditions (conditionsWithReady env federationDomains d)
      d.generation d.status.conditions now }

/-- The write decision of `updateStatus`: `none` when the computed object equals
the observed one (`equality.Semantic.DeepEqual(federationDomain, updated)`, where
the two objects differ at most in status), otherwise the `UpdateStatus` payload. -/
def updateStatusCall (env : IdpEnv) (federationDomains : List FederationDomain)
    (d : FederationDomain) (now : Nat) : Option FDStatus :=
  if computedStatus env federationDomains d now = d.status then none
  else some (computedStatus env federationDomains d now)

/-! ## The `Sync` loop -/

/-- The observable outcome of one `Sync`: the issuers passed to
`SetFederationDomains`, the successful `UpdateStatus` calls (domain name and
payload), the aggregated status-write errors, and the example-failure warnings
logged along the way. -/
structure SyncOutcome where
  published : List FederationDomainIssuer
  statusCalls : List (String × FDStatus)
  errs : List String
  warnings : List ExampleWarningKind

/-- The issuers appended for a successfully validated domain: `Sync` appends the
constructed issuer only when `hadErrorCondition` is false (in which case the
constructor necessarily succeeded, since a constructor error adds a False
condition). -/
def loadedIssuers (env : IdpEnv) (federationDomains : List FederationDomain)
    (d : FederationDomain) : List FederationDomainIssuer :=
  if hadErrorCondition (computeConditions env federationDomains d) then []
  else (domainIssuerResult env d).toOption.toList

/-- What one domain contributes to the published set, accounting for the
status-write outcome: a failed `UpdateStatus` call makes `Sync` `continue` past
the publish step. `apiError` models the apiserver's answer per domain name. -/
def publishContribution (env : IdpEnv) (federationDomains : List FederationDomain)
    (apiError : String → Option String) (now : Nat) (d : FederationDomain) :
    List FederationDomainIssuer :=
  match updateStatusCall env federationDomains d now with
  | some _ =>
      match apiError d.name with
      | some _ => []
      | none => loadedIssuers env federationDomains d
  | none => loadedIssuers env federationDomains d

/-- The body of the `Sync` loop over the listed FederationDomains, processed
against the reconcile snapshot `federationDomains` (which `Sync` also iterates). -/
def syncDomains (env : IdpEnv) (federationDomains : List FederationDomain)
    (apiError : String → Option String) (now : Nat) :
    List FederationDomain → SyncOutcome
  | [] => { published := [], statusCalls := [], errs := [], warnings := [] }
  | d :: rest =>
      let out := syncDomains env federationDomains apiError now rest
      match updateStatusCall env federationDomains d now with
      | some st =>
          match apiError d.name with
          | some e =>
              { published := out.published, statusCalls := out.statusCalls,
                errs := ("could not update status: " ++ e) :: out.errs,
                warnings := domainExampleWarnings d ++ out.warnings }
          | none =>
              { published := loadedIssuers env federationDomains d ++ out.published,
                statusCalls := (d.name, st) :: out.statusCalls, errs := out.errs,
                warnings := domainExampleWarnings d ++ out.warnings }
      | none =>
          { published := loadedIssuers env federationDomains d ++ out.published,
            statusCalls := out.statusCalls, errs := out.errs,
            warnings := domainExampleWarnings d ++ out.warnings }

/-- One reconcile of `federationDomainWatcherController.Sync`. -/
def sync (env : IdpEnv) (federationDomains : List FederationDomain)
    (apiError : String → Option String) (now : Nat) : SyncOutcome :=
  syncDomains env federationDomains apiError now federationDomains

/-! ## The `/oauth2/authorize` handler

Query/form machinery: Go's `net/url` form values keyed in request order, with
`url.Values.Encode` producing the key-sorted re-encoding. Percent-escaping is not
modelled; the concrete inputs used below contain only unreserved characters, for
which Go's encoder is the identity on keys and values. -/

def splitOnCharAux (sep : Char) : List Char → List Char → List String
  | [], acc => [String.mk acc.reverse]
  | c :: rest, acc =>
      if c = sep then String.mk acc.reverse :: splitOnCharAux sep rest []
      else splitOnCharAux sep rest (c :: acc)

/-- Split a string on a separator character (as `strings.Split` with a one-byte
separator). -/
def splitOnChar (sep : Char) (s : String) : List String :=
  splitOnCharAux sep s.data []

/-- Split a key-value segment at the first `=`, when present. -/
def splitFirstEq : List Char → Option (List Char × List Char)
  | [] => none
  | c :: rest =>
      if c = '=' then some ([], rest)
      else
        match splitFirstEq rest with
        | some (pre, post) => some (c :: pre, post)
        | none => none

/-- Go `url.ParseQuery` (restricted to unreserved characters): split on `&`, skip
empty segments, split each segment at the first `=` (a segment without `=` becomes
a key with empty value). -/
def parseQueryPairs (s : String) : List (String × String) :=
  (splitOnChar '&' s).filterMap (fun kv =>
    if kv = "" then none
    else
      match splitFirstEq kv.data with
      | none => some (kv, "")
      | some (pre, post) => some (String.mk pre, String.mk post))

/-- `url.Values.Get`: the first value for the key, or `""`. -/
def valuesGet (form : List (String × String)) (key : String) : String :=
  match form.find? (fun p => p.1 == key) with
  | some p => p.2
  | none => ""

/-- Byte-wise lexicographic order on strings (the order used by Go's
`sort.Strings` inside `url.Values.Encode`). -/
def charListLe : List Char → List Char → Bool
  | [], _ => true
  | _ :: _, [] => false
  | a :: as, b :: bs => if a = b then charListLe as bs else decide (a < b)

def stringLe (a b : String) : Bool :=
  charListLe a.data b.data

def insertSortedString (s : String) : List String → List String
  | [] => [s]
  | t :: rest => if stringLe s t then s :: t :: rest else t :: insertSortedString s rest

def sortStrings : List String → List String
  | [] => []
  | s :: rest => insertSortedString s (sortStrings rest)

/-- `url.Values.Encode`: keys sorted, each key's values in request order,
`k=v` pairs joined by `&`. -/
def encodeValues (form : List (String × String)) : String :=
  String.intercalate "&"
    ((sortStrings (form.map (fun p => p.1)).dedup).flatMap (fun k =>
      (form.filter (fun p => p.1 == k)).map (fun p => k ++ "=" ++ p.2)))

/-! Constants of the handler (from the `oidcapi` and `oidc` packages; the endpoint
path and cookie names are fixed by the spec §6.1). -/

def authorizeUpstreamIDPNameParamName : String := "pinniped_idp_name"

def authorizeUpstreamIDPTypeParamName : String := "pinniped_idp_type"

def chooseIDPEndpointPath : String := "/choose_identity_provider"

def csrfCookieName : String := "__Host-pinniped-csrf"

def promptParamName : String := "prompt"

def promptParamNone : String := "none"

def scopeOpenID : String := "openid"

/-- The reader side of the published IdP set consulted by the handler
(`FederationDomainIdentityProvidersFinderI`): the back-compat default-IdP probe
and the IdP-count probe. -/
structure IDPFinderState where
  hasDefaultIDP : Bool
  idpCount : Nat

/-- The parts of the HTTP request read before choosing the IdP: method, raw query
string, and the two custom credential headers (lists of values, as
`r.Header.Values` returns). -/
structure AuthorizeHTTPRequest where
  method : String
  rawQuery : String
  usernameHeaders : List String
  passwordHeaders : List String

/-- "The client set a username or password header, so they are trying to log in
without using a browser." -/
def requestedBrowserlessFlow (r : AuthorizeHTTPRequest) : Bool :=
  r.usernameHeaders.length > 0 || r.passwordHeaders.length > 0

/-- `shouldShowIDPChooser` from the source. -/
def shouldShowIDPChooser (idpFinder : IDPFinderState) (idpNameQueryParamValue : String)
    (browserlessFlowRequested : Bool) : Bool :=
  let clientDidNotRequestSpecificIDP := idpNameQueryParamValue.length == 0
  let clientRequestedBrowserBasedFlow := !browserlessFlowRequested
  let inBackwardsCompatMode := idpFinder.hasDefaultIDP
  let federationDomainSpecHasSomeValidIDPs := decide (idpFinder.idpCount > 0)
  clientDidNotRequestSpecificIDP && clientRequestedBrowserBasedFlow &&
    !inBackwardsCompatMode && federationDomainSpecHasSomeValidIDPs

/-- The observable outcome of the dispatch part of `ServeHTTP` (through the IdP
chooser decision). -/
inductive AuthorizeStep where
  | methodNotAllowed (status : Nat)
  | chooserRedirect (location : String) (status : Nat)
  | continueWithIDP (idpName : String)
deriving DecidableEq, Repr

/-- `authorizeHandler.ServeHTTP` up to and including the IdP chooser decision:
method check, form parse (`r.Form` for a GET is the parsed query), then either the
303 redirect to the chooser page built as
`downstreamIssuerURL + ChooseIDPEndpointPath + "?" + r.Form.Encode()`, or
continuation with the requested IdP name. -/
def serveAuthorizeStep (downstreamIssuerURL : String) (idpFinder : IDPFinderState)
    (r : AuthorizeHTTPRequest) : AuthorizeStep :=
  if r.method != "POST" && r.method != "GET" then .methodNotAllowed 405
  else
    let form := parseQueryPairs r.rawQuery
    let idpNameQueryParamValue := valuesGet form authorizeUpstreamIDPNameParamName
    if shouldShowIDPChooser idpFinder idpNameQueryParamValue (requestedBrowserlessFlow r) then
      .chooserRedirect (downstreamIssuerURL ++ chooseIDPEndpointPath ++ "?" ++ encodeValues form) 303
    else
      .continueWithIDP idpNameQueryParamValue

/-! ## Browser flow: upstream state and CSRF cookie -/

/-- `oidc.UpstreamStateParamData`, the payload of the upstream `state` parameter
(carried unencoded; the symmetric codec is injective on payloads). -/
structure UpstreamStateParamData where
  authParams : String
  upstreamName : String
  upstreamType : String
  nonce : String
  csrfToken : String
  pkceCode : String
  formatVersion : String
deriving DecidableEq, Repr

/-- Modelled from the spec: the opaque upstream-state format version constant. -/
def upstreamStateParamFormatVersion : String := "2"

/-- `removeCustomIDPParams` from the source: drop the two Pinniped IdP-selection
params before encoding the auth params into the upstream state. -/
def removeCustomIDPParams (params : List (String × String)) : List (String × String) :=
  params.filter (fun p =>
    p.1 != authorizeUpstreamIDPNameParamName && p.1 != authorizeUpstreamIDPTypeParamName)

/-- `resolvedprovider.UpstreamAuthorizeRequestState`. -/
structure UpstreamAuthorizeRequestState where
  stateParam : UpstreamStateParamData
  pkce : String
  nonce : String
deriving DecidableEq, Repr

/-- The attributes of the cookie written by `addCSRFSetCookieHeader`. -/
structure SetCookieRec where
  name : String
  value : String
  httpOnly : Bool
  sameSite : String
  secure : Bool
  path : String
deriving DecidableEq, Repr

/-- The inputs of `generateUpstreamAuthorizeRequestState`, with each external
collaborator modelled explicitly: the fosite `NewAuthorizeResponse` verdict, the
three generators, and the two symmetric codecs (decode as a partial function,
encode as a total function plus a success flag for each encoder use). -/
structure GenInputs where
  form : List (String × String)
  requestedScopes : List String
  cookie : Option String
  decodeCookie : String → Option String
  encodeCookie : String → String
  authorizeResponseOK : Bool
  generateValuesOK : Bool
  encodeStateOK : Bool
  cookieEncodeOK : Bool
  genCSRF : String
  genNonce : String
  genPKCE : String
  upstreamDisplayName : String
  idpType : String

/-- `readCSRFCookie` from the source: the decoded token of the inbound
`__Host-pinniped-csrf` cookie, or `""` when the cookie is absent or fails to
decode (decode errors are deliberately swallowed). -/
def readCSRFCookie (i : GenInputs) : String :=
  match i.cookie with
  | none => ""
  | some v =>
      match i.decodeCookie v with
      | none => ""
      | some t => t

/-- `oidc.ScopeWasRequested`. -/
def scopeWasRequested (requestedScopes : List String) (scopeName : String) : Bool :=
  requestedScopes.contains scopeName

inductive AuthorizeErrKind where
  | authorizeResponseError
  | serverErrorGeneratingValues
  | serverErrorEncodingState
  | loginRequired
  | serverErrorEncodingCookie
deriving DecidableEq, Repr

/-- The outcome of `generateUpstreamAuthorizeRequestState`: the returned state (or
the fosite error handed back to the caller) together with the `Set-Cookie` header
written, if any. -/
structure GenOutcome where
  result : Except AuthorizeErrKind UpstreamAuthorizeRequestState
  setCookie : Option SetCookieRec
deriving Repr

/-- `generateUpstreamAuthorizeRequestState` from the source, in execution order:
fosite `NewAuthorizeResponse` dry-run, value generation, CSRF cookie read,
upstream state construction (`upstreamStateParam`), the `prompt=none` check, and
finally `addCSRFSetCookieHeader` when no usable inbound cookie token was found. -/
def generateUpstreamAuthorizeRequestState (i : GenInputs) : GenOutcome :=
  if !i.authorizeResponseOK then
    { result := .error .authorizeResponseError, setCookie := none }
  else if !i.generateValuesOK then
    { result := .error .serverErrorGeneratingValues, setCookie := none }
  else
    let csrfFromCookie := readCSRFCookie i
    let csrfValue := if csrfFromCookie != "" then csrfFromCookie else i.genCSRF
    if !i.encodeStateOK then
      { result := .error .serverErrorEncodingState, setCookie := none }
    else
      let stateParam : UpstreamStateParamData :=
        { authParams := encodeValues (removeCustomIDPParams i.form),
          upstreamName := i.upstreamDisplayName, upstreamType := i.idpType,
          nonce := i.genNonce, csrfToken := csrfValue, pkceCode := i.genPKCE,
          formatVersion := upstreamStateParamFormatVersion }
      if valuesGet i.form promptParamName == promptParamNone &&
          scopeWasRequested i.requestedScopes scopeOpenID then
        { result := .error .loginRequired, setCookie := none }
      else if csrfFromCookie == "" then
        if !i.cookieEncodeOK then
          { result := .error .serverErrorEncodingCookie, setCookie := none }
        else
          { result := .ok { stateParam := stateParam, pkce := i.genPKCE, nonce := i.genNonce },
            setCookie := some { name := csrfCookieName, value := i.encodeCookie csrfValue,
                                httpOnly := true, sameSite := "Lax", secure := true,
                                path := "/" } }
      else
        { result := .ok { stateParam := stateParam, pkce := i.genPKCE, nonce := i.genNonce },
          setCookie := none }

/-- The outcome of `authorizeWithBrowser`: either an error written through
`WriteAuthorizeError` (for `fosite.ErrLoginRequired` this is the 303 redirect to
the client's `redirect_uri` with `error=login_required`), or the 303 redirect to
the upstream provider's authorize URL. -/
inductive BrowserFlowOutcome where
  | errorResponse (e : AuthorizeErrKind)
  | upstreamRedirect (url : String)
deriving DecidableEq, Repr

/-- `authorizeWithBrowser` from the source, with the provider's
`UpstreamAuthorizeRedirectURL` modelled as a function of the returned state. -/
def authorizeWithBrowser (i : GenInputs)
    (upstreamAuthorizeRedirectURL : UpstreamAuthorizeRequestState → String) :
    BrowserFlowOutcome :=
  match (generateUpstreamAuthorizeRequestState i).result with
  | .error e => .errorResponse e
  | .ok st => .upstreamRedirect (upstreamAuthorizeRedirectURL st)

/-! ## Basic lemmas -/

theorem hadErrorCondition_eq_false_iff (conditions : List Condition) :
    hadErrorCondition conditions = false ↔ ∀ c ∈ conditions, c.status = conditionTrue := by
  simp [hadErrorCondition]

theorem hadErrorCondition_of_mem {c : Condition} {conditions : List Condition}
    (hmem : c ∈ conditions) (hstatus : c.status ≠ conditionTrue) :
    hadErrorCondition conditions = true := by
  simp [hadErrorCondition]
  exact ⟨c, hmem, hstatus⟩

theorem mem_except_toOption_toList {α β : Type} {e : Except α β} {x : β}
    (h : x ∈ e.toOption.toList) : e = .ok x := by
  cases e with
  | error a => simp [Except.toOption] at h
  | ok b => simp [Except.toOption] at h; simp [h]

/-! ## Characterizations of the `Sync` loop -/

theorem syncDomains_published_eq (env : IdpEnv) (federationDomains : List FederationDomain)
    (apiError : String → Option String) (now : Nat) (l : List FederationDomain) :
    (syncDomains env federationDomains apiError now l).published =
      l.flatMap (publishContribution env federationDomains apiError now) := by
  induction l with
  | nil => rfl
  | cons d rest ih =>
      simp only [syncDomains, List.flatMap_cons, publishContribution]
      cases hcall : updateStatusCall env federationDomains d now with
      | none => simp [ih]
      | some st =>
          cases herr : apiError d.name with
          | none => simp [ih]
          | some e => simp [ih]

theorem syncDomains_errs_eq (env : IdpEnv) (federationDomains : List FederationDomain)
    (apiError : String → Option String) (now : Nat) (l : List FederationDomain) :
    (syncDomains env federationDomains apiError now l).errs =
      l.filterMap (fun d =>
        match updateStatusCall env federationDomains d now with
        | some _ => (apiError d.name).map (fun e => "could not update status: " ++ e)
        | none => none) := by
  induction l with
  | nil => rfl
  | cons d rest ih =>
      simp only [syncDomains, List.filterMap_cons]
      cases hcall : updateStatusCall env federationDomains d now with
      | none => simp [ih]
      | some st =>
          cases herr : apiError d.name with
          | none => simp [ih]
          | some e => simp [ih]

theorem syncDomains_statusCalls_eq (env : IdpEnv) (federationDomains : List FederationDomain)
    (apiError : String → Option String) (now : Nat) (l : List FederationDomain) :
    (syncDomains env federationDomains apiError now l).statusCalls =
      l.filterMap (fun d =>
        match updateStatusCall env federationDomains d now with
        | some st =>
            match apiError d.name with
            | some _ => none
            | none => some (d.name, st)
        | none => none) := by
  induction l with
  | nil => rfl
  | cons d rest ih =>
      simp only [syncDomains, List.filterMap_cons]
      cases hcall : updateStatusCall env federationDomains d now with
      | none => simp [ih]
      | some st =>
          cases herr : apiError d.name with
          | none => simp [ih]
          | some e => simp [ih]

/-! ## Lemmas about condition types and the merge -/

theorem crossDomainValidate_types (federationDomains : List FederationDomain)
    (d : FederationDomain) :
    (crossDomainValidate federationDomains d).map (fun c => c.type) =
      [typeIssuerIsUnique, typeOneTLSSecretPerIssuerHostname] := by
  unfold crossDomainValidate
  cases d.parsedIssuer with
  | none => rfl
  | some u =>
      by_cases h1 : issuerCount federationDomains (issuerURLToIssuerKey u) > 1 <;>
        by_cases h2 :
          (secretNamesForIssuerAddress federationDomains (issuerURLToHostnameKey u)).length > 1 <;>
        simp [h1, h2, duplicateIssuerCondition, uniqueIssuerCondition,
          differentSecretRefsCondition, sameSecretRefCondition, typeIssuerIsUnique,
          typeOneTLSSecretPerIssuerHostname]

theorem legacyResolution_types (env : IdpEnv) :
    (legacyResolution env).2.map (fun c => c.type) = [typeIdentityProvidersFound] := by
  unfold legacyResolution
  by_cases h1 : idpCRsCount env = 1 <;> by_cases h2 : idpCRsCount env > 1 <;>
    simp [h1, h2, legacySuccessCondition, identityProviderNotSpecifiedCondition,
      legacyNotFoundCondition, typeIdentityProvidersFound]

theorem identityProvidersConditions_types (env : IdpEnv) (d : FederationDomain) :
    (identityProvidersConditions env d).map (fun c => c.type) =
      [typeIdentityProvidersFound] := by
  unfold identityProvidersConditions
  by_cases hempty : d.identityProviders.isEmpty
  · have hnil : d.identityProviders = [] := by
      cases hl : d.identityProviders with
      | nil => rfl
      | cons a as => rw [hl] at hempty; simp [List.isEmpty] at hempty
    simp [hempty, hnil, idpNotFoundIndices, legacyResolution_types]
  · have hne : idpNotFoundIndices env d.namespaceName d.identityProviders = [] ∨
        idpNotFoundIndices env d.namespaceName d.identityProviders ≠ [] := by
      by_cases h : idpNotFoundIndices env d.namespaceName d.identityProviders = []
      · exact Or.inl h
      · exact Or.inr h
    rcases hne with h | h
    · simp [hempty, h, idpRefsFoundCondition, typeIdentityProvidersFound]
    · simp [hempty, h, idpRefsNotFoundCondition, typeIdentityProvidersFound]

theorem issuerURLValidCondition_type (env : IdpEnv) (d : FederationDomain) :
    (issuerURLValidCondition env d).type = typeIssuerURLValid := by
  unfold issuerURLValidCondition
  cases domainIssuerResult env d with
  | error e => rfl
  | ok iss => rfl

theorem readyCondition_type (conditions : List Condition) (issuer : String) :
    (readyCondition conditions issuer).type = typeReady := by
  unfold readyCondition
  by_cases h : hadErrorCondition conditions <;> simp [h, notReadyCondition, readyTrueCondition]

/-- The five condition types written for one domain in one reconcile are pairwise
distinct. -/
theorem conditionsWithReady_types_nodup (env : IdpEnv)
    (federationDomains : List FederationDomain) (d : FederationDomain) :
    ((conditionsWithReady env federationDomains d).map (fun c => c.type)).Nodup := by
  unfold conditionsWithReady computeConditions
  simp only [List.map_append]
  rw [crossDomainValidate_types, identityProvidersConditions_types]
  simp only [List.map_cons, List.map_nil, readyCondition_type, issuerURLValidCondition_type]
  decide

/-- Helper: the merged image of a condition keeps its type, status, reason and
message, changing only `observedGeneration` and `lastTransitionTime`. -/
theorem mergeOneCondition_eq (generation : Nat) (oldConditions : List Condition) (now : Nat)
    (c : Condition) :
    ∃ t, mergeOneCondition generation oldConditions now c =
      { c with observedGeneration := generation, lastTransitionTime := t } := by
  unfold mergeOneCondition
  cases hfind : oldConditions.find? (fun o => o.type == c.type) with
  | none => exact ⟨now, rfl⟩
  | some o =>
      by_cases hmatch : o.status == c.status && o.reason == c.reason && o.message == c.message
      · exact ⟨o.lastTransitionTime, by simp [hmatch]⟩
      · exact ⟨now, by simp [hmatch]⟩

theorem mergeOneCondition_type (generation : Nat) (oldConditions : List Condition)
    (now : Nat) (c : Condition) :
    (mergeOneCondition generation oldConditions now c).type = c.type := by
  obtain ⟨t, ht⟩ := mergeOneCondition_eq generation oldConditions now c
  rw [ht]

/-- Helper: under pairwise distinct condition types, looking a condition's type up
in the merged list finds exactly that condition's merged image. -/
theorem find_in_merged (generation : Nat) (oldConditions : List Condition) (now : Nat) :
    ∀ (newConditions : List Condition) (c : Condition),
      ((newConditions.map (fun x => x.type)).Nodup) → c ∈ newConditions →
      (mergeConfigConditions newConditions generation oldConditions now).find?
          (fun o => o.type == c.type) =
        some (mergeOneCondition generation oldConditions now c) := by
  intro newConditions
  induction newConditions with
  | nil => intro c _ hmem; simp at hmem
  | cons a rest ih =>
      intro c hnodup hmem
      simp only [List.map_cons, List.nodup_cons] at hnodup
      obtain ⟨hnotin, hrestnodup⟩ := hnodup
      rcases List.mem_cons.mp hmem with hca | hcrest
      · subst hca
        simp [mergeConfigConditions, List.find?_cons, mergeOneCondition_type]
      · have htyne : a.type ≠ c.type := by
          intro heq
          exact hnotin (heq ▸ List.mem_map_of_mem (fun x => x.type) hcrest)
        have hbeq : (a.type == c.type) = false := beq_eq_false_iff_ne.mpr htyne
        simp only [mergeConfigConditions, List.map_cons, List.find?_cons,
          mergeOneCondition_type, hbeq]
        exact ih c hrestnodup hcrest

/-- Re-merging the same computed conditions into a freshly merged status is a
no-op: when an observed condition of the same type carries the same status,
reason and message, its `lastTransitionTime` is kept, so the merged list is a
fixed point (for pairwise distinct condition types). -/
theorem mergeOneCondition_of_find (l : List Condition) (c m : Condition)
    (generation now' t : Nat)
    (hfind : l.find? (fun o => o.type == c.type) = some m)
    (hm : m = { c with observedGeneration := generation, lastTransitionTime := t }) :
    mergeOneCondition generation l now' c = m := by
  unfold mergeOneCondition
  rw [hfind]
  subst hm
  simp

theorem mergeConfigConditions_idem (newConditions : List Condition) (generation : Nat)
    (oldConditions : List Condition) (now now' : Nat)
    (hnodup : (newConditions.map (fun x => x.type)).Nodup) :
    mergeConfigConditions newConditions generation
        (mergeConfigConditions newConditions generation oldConditions now) now' =
      mergeConfigConditions newConditions generation oldConditions now := by
  conv_lhs => rw [mergeConfigConditions]
  conv_rhs => rw [mergeConfigConditions]
  apply List.map_congr_left
  intro c hc
  have hfind := find_in_merged generation oldConditions now newConditions c hnodup hc
  obtain ⟨t, ht⟩ := mergeOneCondition_eq generation oldConditions now c
  exact mergeOneCondition_of_find _ _ _ _ _ _ hfind ht

/-! ## Back-to-back reconciles -/

/-- The effect of a successful status write: the domain as observed by the next
reconcile, its status replaced by the computed one. The spec fields are untouched
(the controller writes only status). -/
def applyStatusUpdate (env : IdpEnv) (federationDomains : List FederationDomain)
    (now : Nat) (d : FederationDomain) : FederationDomain :=
  { d with status := computedStatus env federationDomains d now }

theorem issuerCount_applyStatusUpdate (env : IdpEnv)
    (federationDomains : List FederationDomain) (now : Nat) (key : String) :
    issuerCount (federationDomains.map (applyStatusUpdate env federationDomains now)) key =
      issuerCount federationDomains key := by
  unfold issuerCount
  rw [List.filterMap_map]
  rfl

theorem secretNames_applyStatusUpdate (env : IdpEnv)
    (federationDomains : List FederationDomain) (now : Nat) (hostnameKey : String) :
    secretNamesForIssuerAddress
        (federationDomains.map (applyStatusUpdate env federationDomains now)) hostnameKey =
      secretNamesForIssuerAddress federationDomains hostnameKey := by
  unfold secretNamesForIssuerAddress
  rw [List.filterMap_map]
  rfl

theorem crossDomainValidate_applyStatusUpdate (env : IdpEnv)
    (federationDomains : List FederationDomain) (now : Nat) (d : FederationDomain) :
    crossDomainValidate (federationDomains.map (applyStatusUpdate env federationDomains now))
        (applyStatusUpdate env federationDomains now d) =
      crossDomainValidate federationDomains d := by
  unfold crossDomainValidate
  have hpi : (applyStatusUpdate env federationDomains now d).parsedIssuer = d.parsedIssuer := rfl
  rw [hpi]
  cases d.parsedIssuer with
  | none => rfl
  | some u =>
      simp only [issuerCount_applyStatusUpdate, secretNames_applyStatusUpdate]

theorem computeConditions_applyStatusUpdate (env : IdpEnv)
    (federationDomains : List FederationDomain) (now : Nat) (d : FederationDomain) :
    computeConditions env (federationDomains.map (applyStatusUpdate env federationDomains now))
        (applyStatusUpdate env federationDomains now d) =
      computeConditions env federationDomains d := by
  unfold computeConditions
  rw [crossDomainValidate_applyStatusUpdate]
  rfl

theorem conditionsWithReady_applyStatusUpdate (env : IdpEnv)
    (federationDomains : List FederationDomain) (now : Nat) (d : FederationDomain) :
    conditionsWithReady env (federationDomains.map (applyStatusUpdate env federationDomains now))
        (applyStatusUpdate env federationDomains now d) =
      conditionsWithReady env federationDomains d := by
  unfold conditionsWithReady
  rw [computeConditions_applyStatusUpdate]
  rfl

/-- After a successful status write, re-running `updateStatus` with an unchanged
custom resource computes a status equal to the observed one, so no `UpdateStatus`
call is made. -/
theorem updateStatusCall_applyStatusUpdate_eq_none (env : IdpEnv)
    (federationDomains : List FederationDomain) (now now' : Nat) (d : FederationDomain) :
    updateStatusCall env (federationDomains.map (applyStatusUpdate env federationDomains now))
        (applyStatusUpdate env federationDomains now d) now' = none := by
  have hcc := computeConditions_applyStatusUpdate env federationDomains now d
  have hstatus :
      computedStatus env (federationDomains.map (applyStatusUpdate env federationDomains now))
        (applyStatusUpdate env federationDomains now d) now' =
      (applyStatusUpdate env federationDomains now d).status := by
    unfold computedStatus
    rw [hcc, conditionsWithReady_applyStatusUpdate]
    rw [show (applyStatusUpdate env federationDomains now d).generation = d.generation from rfl]
    rw [show (applyStatusUpdate env federationDomains now d).status.conditions =
        mergeConfigConditions (conditionsWithReady env federationDomains d)
          d.generation d.status.conditions now from rfl]
    rw [mergeConfigConditions_idem _ _ _ _ _
      (conditionsWithReady_types_nodup env federationDomains d)]
    rfl
  unfold updateStatusCall
  rw [hstatus]
  simp

/-! ## Transformation examples are advisory -/

/-- An example tuple fails its dry run: the rejection outcome differs from the
expectation, or the rejection message differs when both agree on rejection, or
(when authentication is allowed) the username or groups differ. -/
def exampleFails (pipeline : List CompiledTransform) (e : TransformExample) : Bool :=
  let result := evaluatePipeline pipeline e.username e.groups
  let resultWasAuthRejected := !result.authenticationAllowed
  (e.expects.rejected != resultWasAuthRejected) ||
  (e.expects.rejected && resultWasAuthRejected &&
    e.expects.message != result.rejectedAuthenticationMessage) ||
  (result.authenticationAllowed &&
    (e.expects.username != result.username || !stringSlicesEqual e.expects.groups result.groups))

theorem exampleWarnings_ne_nil_iff (pipeline : List CompiledTransform)
    (e : TransformExample) :
    exampleWarnings pipeline e ≠ [] ↔ exampleFails pipeline e = true := by
  unfold exampleWarnings exampleFails
  cases hb : e.expects.rejected <;>
    cases ha : (evaluatePipeline pipeline e.username e.groups).authenticationAllowed <;>
      simp [hb, ha] <;>
      by_cases hmsg : e.expects.message =
          (evaluatePipeline pipeline e.username e.groups).rejectedAuthenticationMessage <;>
        by_cases hu : e.expects.username = (evaluatePipeline pipeline e.username e.groups).username <;>
          by_cases hg : stringSlicesEqual e.expects.groups
              (evaluatePipeline pipeline e.username e.groups).groups <;>
            simp [hmsg, hu, hg]

/-- A FederationDomain with all transformation examples removed (the spec fields
feeding conditions, resolution and issuer construction are untouched). -/
def eraseRefExamples (ref : IdentityProviderRef) : IdentityProviderRef :=
  { ref with transforms := { ref.transforms with examples := [] } }

def eraseExamples (d : FederationDomain) : FederationDomain :=
  { d with identityProviders := d.identityProviders.map eraseRefExamples }

theorem idpNotFoundIndices_eraseRefExamples (env : IdpEnv) (ns : String)
    (refs : List IdentityProviderRef) :
    idpNotFoundIndices env ns (refs.map eraseRefExamples) = idpNotFoundIndices env ns refs := by
  unfold idpNotFoundIndices
  rw [List.enum_map, List.filterMap_map]
  rfl

theorem getD_displayName_eraseRefExamples (refs : List IdentityProviderRef) (i : Nat)
    (dflt : IdentityProviderRef) :
    ((refs.map eraseRefExamples).getD i dflt).displayName = (refs.getD i dflt).displayName := by
  rw [List.getD_eq_getElem?_getD, List.getD_eq_getElem?_getD, List.getElem?_map]
  cases h : refs[i]? with
  | none => simp
  | some r => simp [eraseRefExamples]

theorem idpNotFoundMessage_eraseRefExamples (refs : List IdentityProviderRef)
    (indices : List Nat) :
    idpNotFoundMessage (refs.map eraseRefExamples) indices = idpNotFoundMessage refs indices := by
  unfold idpNotFoundMessage
  congr 1
  apply congrArg
  apply List.map_congr_left
  intro i _
  rw [getD_displayName_eraseRefExamples]

theorem isEmpty_map_eraseRefExamples (refs : List IdentityProviderRef) :
    (refs.map eraseRefExamples).isEmpty = refs.isEmpty := by
  cases refs <;> rfl

theorem identityProvidersConditions_eraseExamples (env : IdpEnv) (d : FederationDomain) :
    identityProvidersConditions env (eraseExamples d) = identityProvidersConditions env d := by
  unfold identityProvidersConditions eraseExamples
  simp only [isEmpty_map_eraseRefExamples, idpNotFoundIndices_eraseRefExamples]
  by_cases hempty : d.identityProviders.isEmpty <;>
    by_cases hidx : idpNotFoundIndices env d.namespaceName d.identityProviders = [] <;>
      simp [hempty, hidx, idpRefsNotFoundCondition, idpNotFoundMessage_eraseRefExamples]

theorem domainFDIdentityProviders_eraseExamples (env : IdpEnv) (d : FederationDomain) :
    domainFDIdentityProviders env (eraseExamples d) = domainFDIdentityProviders env d := by
  unfold domainFDIdentityProviders eraseExamples
  rw [List.map_map]
  rfl

theorem domainIssuerResult_eraseExamples (env : IdpEnv) (d : FederationDomain) :
    domainIssuerResult env (eraseExamples d) = domainIssuerResult env d := by
  unfold domainIssuerResult domainDefaultIDP
  have hempty : (eraseExamples d).identityProviders.isEmpty = d.identityProviders.isEmpty :=
    isEmpty_map_eraseRefExamples d.identityProviders
  rw [hempty]
  by_cases h : d.identityProviders.isEmpty
  · simp only [h, if_pos]
    cases (legacyResolution env).1 with
    | none => rw [domainFDIdentityProviders_eraseExamples]; rfl
    | some dflt => rfl
  · simp only [h, if_neg, Bool.false_eq_true, reduceIte]
    rw [domainFDIdentityProviders_eraseExamples]
    rfl

theorem computeConditions_eraseExamples (env : IdpEnv)
    (federationDomains : List FederationDomain) (d : FederationDomain) :
    computeConditions env federationDomains (eraseExamples d) =
      computeConditions env federationDomains d := by
  unfold computeConditions issuerURLValidCondition
  rw [identityProvidersConditions_eraseExamples, domainIssuerResult_eraseExamples]
  rfl

theorem issuerCount_eraseExamples (federationDomains : List FederationDomain) (key : String) :
    issuerCount (federationDomains.map eraseExamples) key = issuerCount federationDomains key := by
  unfold issuerCount
  rw [List.filterMap_map]
  rfl

theorem secretNames_eraseExamples (federationDomains : List FederationDomain)
    (hostnameKey : String) :
    secretNamesForIssuerAddress (federationDomains.map eraseExamples) hostnameKey =
      secretNamesForIssuerAddress federationDomains hostnameKey := by
  unfold secretNamesForIssuerAddress
  rw [List.filterMap_map]
  rfl

theorem crossDomainValidate_eraseExamples (federationDomains : List FederationDomain)
    (d : FederationDomain) :
    crossDomainValidate (federationDomains.map eraseExamples) (eraseExamples d) =
      crossDomainValidate federationDomains d := by
  unfold crossDomainValidate
  rw [show (eraseExamples d).parsedIssuer = d.parsedIssuer from rfl]
  cases d.parsedIssuer with
  | none => rfl
  | some u => simp only [issuerCount_eraseExamples, secretNames_eraseExamples]

theorem computeConditions_map_eraseExamples (env : IdpEnv)
    (federationDomains : List FederationDomain) (d : FederationDomain) :
    computeConditions env (federationDomains.map eraseExamples) (eraseExamples d) =
      computeConditions env federationDomains d := by
  unfold computeConditions issuerURLValidCondition
  rw [crossDomainValidate_eraseExamples, identityProvidersConditions_eraseExamples,
    domainIssuerResult_eraseExamples]

theorem computedStatus_eraseExamples (env : IdpEnv)
    (federationDomains : List FederationDomain) (d : FederationDomain) (now : Nat) :
    computedStatus env (federationDomains.map eraseExamples) (eraseExamples d) now =
      computedStatus env federationDomains d now := by
  unfold computedStatus conditionsWithReady
  rw [computeConditions_map_eraseExamples]
  rfl

theorem updateStatusCall_eraseExamples (env : IdpEnv)
    (federationDomains : List FederationDomain) (d : FederationDomain) (now : Nat) :
    updateStatusCall env (federationDomains.map eraseExamples) (eraseExamples d) now =
      updateStatusCall env federationDomains d now := by
  unfold updateStatusCall
  rw [computedStatus_eraseExamples]
  rfl

theorem loadedIssuers_eraseExamples (env : IdpEnv)
    (federationDomains : List FederationDomain) (d : FederationDomain) :
    loadedIssuers env (federationDomains.map eraseExamples) (eraseExamples d) =
      loadedIssuers env federationDomains d := by
  unfold loadedIssuers
  rw [computeConditions_map_eraseExamples, domainIssuerResult_eraseExamples]

theorem domainExampleWarnings_eraseExamples (d : FederationDomain) :
    domainExampleWarnings (eraseExamples d) = [] := by
  unfold domainExampleWarnings eraseExamples
  simp only [List.flatMap_map]
  have h : ∀ ref : IdentityProviderRef,
      (eraseRefExamples ref).transforms.examples.flatMap
        (exampleWarnings (eraseRefExamples ref).transforms.expressions) = [] := by
    intro ref; rfl
  induction d.identityProviders with
  | nil => rfl
  | cons a rest ih => simp only [List.flatMap_cons, h a, List.nil_append]; exact ih

theorem syncDomains_eraseExamples (env : IdpEnv)
    (federationDomains : List FederationDomain) (apiError : String → Option String)
    (now : Nat) (l : List FederationDomain) :
    (syncDomains env (federationDomains.map eraseExamples) apiError now
        (l.map eraseExamples)).published =
        (syncDomains env federationDomains apiError now l).published ∧
      (syncDomains env (federationDomains.map eraseExamples) apiError now
        (l.map eraseExamples)).statusCalls =
        (syncDomains env federationDomains apiError now l).statusCalls ∧
      (syncDomains env (federationDomains.map eraseExamples) apiError now
        (l.map eraseExamples)).errs =
        (syncDomains env federationDomains apiError now l).errs := by
  induction l with
  | nil => exact ⟨rfl, rfl, rfl⟩
  | cons d rest ih =>
      obtain ⟨ihp, ihc, ihe⟩ := ih
      simp only [List.map_cons, syncDomains, updateStatusCall_eraseExamples,
        loadedIssuers_eraseExamples]
      rw [show (eraseExamples d).name = d.name from rfl]
      cases updateStatusCall env federationDomains d now with
      | none => exact ⟨by rw [ihp], ihc, ihe⟩
      | some st =>
          cases apiError d.name with
          | none => exact ⟨by rw [ihp], by rw [ihc], ihe⟩
          | some e => exact ⟨ihp, ihc, by rw [ihe]⟩

/-- Removing every transformation example from every FederationDomain leaves the
published issuers, the status writes and the aggregated errors of a reconcile
unchanged (only the logged warnings change). -/
theorem sync_eraseExamples (env : IdpEnv) (federationDomains : List FederationDomain)
    (apiError : String → Option String) (now : Nat) :
    (sync env (federationDomains.map eraseExamples) apiError now).published =
        (sync env federationDomains apiError now).published ∧
      (sync env (federationDomains.map eraseExamples) apiError now).statusCalls =
        (sync env federationDomains apiError now).statusCalls ∧
      (sync env (federationDomains.map eraseExamples) apiError now).errs =
        (sync env federationDomains apiError now).errs := by
  unfold sync
  exact syncDomains_eraseExamples env federationDomains apiError now federationDomains

/-- Every domain's example warnings are logged by the reconcile, whatever the
status-write outcome. -/
theorem syncDomains_warnings_eq (env : IdpEnv) (federationDomains : List FederationDomain)
    (apiError : String → Option String) (now : Nat) (l : List FederationDomain) :
    (syncDomains env federationDomains apiError now l).warnings =
      l.flatMap domainExampleWarnings := by
  induction l with
  | nil => rfl
  | cons d rest ih =>
      simp only [syncDomains, List.flatMap_cons]
      cases updateStatusCall env federationDomains d now with
      | none => simp [ih]
      | some st =>
          cases apiError d.name with
          | none => simp [ih]
          | some e => simp [ih]

/-! ## Helpers for the claim theorems -/

theorem one_lt_length_of_two_mem {α : Type} {l : List α} {a b : α}
    (ha : a ∈ l) (hb : b ∈ l) (hab : a ≠ b) : 1 < l.length := by
  cases l with
  | nil => simp at ha
  | cons x rest =>
      cases rest with
      | nil =>
          simp at ha hb
          exact absurd (ha.trans hb.symm) hab
      | cons y rest' => simp [Nat.lt_add_one_iff]

theorem publishContribution_sub_loadedIssuers (env : IdpEnv)
    (federationDomains : List FederationDomain) (apiError : String → Option String)
    (now : Nat) (d : FederationDomain) {iss : FederationDomainIssuer}
    (h : iss ∈ publishContribution env federationDomains apiError now d) :
    iss ∈ loadedIssuers env federationDomains d := by
  unfold publishContribution at h
  cases h1 : updateStatusCall env federationDomains d now with
  | none => rw [h1] at h; exact h
  | some st =>
      rw [h1] at h
      cases h2 : apiError d.name with
      | none => rw [h2] at h; exact h
      | some e => rw [h2] at h; simp at h

theorem loadedIssuers_of_error (env : IdpEnv) (federationDomains : List FederationDomain)
    (d : FederationDomain)
    (herr : hadErrorCondition (computeConditions env federationDomains d) = true) :
    loadedIssuers env federationDomains d = [] := by
  unfold loadedIssuers
  rw [if_pos herr]

theorem publishContribution_of_error (env : IdpEnv)
    (federationDomains : List FederationDomain) (apiError : String → Option String)
    (now : Nat) (d : FederationDomain)
    (herr : hadErrorCondition (computeConditions env federationDomains d) = true) :
    publishContribution env federationDomains apiError now d = [] := by
  unfold publishContribution
  have hl := loadedIssuers_of_error env federationDomains d herr
  cases updateStatusCall env federationDomains d now with
  | none => exact hl
  | some st =>
      cases apiError d.name with
      | none => exact hl
      | some e => rfl

/-! ## Claim theorems -/

/-- C1: For every reconcile of the FederationDomain watcher controller, every
FederationDomainIssuer passed to `SetFederationDomains` comes from a
FederationDomain whose computed conditions for that reconcile (including the
appended `Ready` summary) are all True; no domain with any non-True condition
(False or Unknown) is ever included in the published set. -/
theorem c1_published_issuers_have_all_true_conditions
    (env : IdpEnv) (federationDomains : List FederationDomain)
    (apiError : String → Option String) (now : Nat) (iss : FederationDomainIssuer)
    (hmem : iss ∈ (sync env federationDomains apiError now).published) :
    ∃ d ∈ federationDomains, domainIssuerResult env d = .ok iss ∧
      ∀ c ∈ conditionsWithReady env federationDomains d, c.status = conditionTrue := by
  rw [sync, syncDomains_published_eq] at hmem
  obtain ⟨d, hd, hcontrib⟩ := List.mem_flatMap.mp hmem
  refine ⟨d, hd, ?_⟩
  have hloaded := publishContribution_sub_loadedIssuers env federationDomains apiError now d hcontrib
  unfold loadedIssuers at hloaded
  by_cases herr : hadErrorCondition (computeConditions env federationDomains d)
  · rw [if_pos herr] at hloaded; simp at hloaded
  · rw [if_neg herr] at hloaded
    have herr' : hadErrorCondition (computeConditions env federationDomains d) = false := by
      simpa using herr
    refine ⟨mem_except_toOption_toList hloaded, ?_⟩
    intro c hc
    unfold conditionsWithReady at hc
    rcases List.mem_append.mp hc with h | h
    · exact (hadErrorCondition_eq_false_iff _).mp herr' c h
    · have hcr : c = readyCondition (computeConditions env federationDomains d) d.issuer := by
        simpa using h
      rw [hcr, readyCondition, if_neg (by simp [herr'])]
      rfl

/-- C2: For every reconcile in which two or more FederationDomains have the same
issuer key `scheme://lower(host)/path`, every such domain receives the condition
`IssuerIsUnique=False` with reason `DuplicateIssuer`, therefore `Ready=False`,
and none of those domains contributes anything to the published set. -/
theorem c2_duplicate_issuer_not_published
    (env : IdpEnv) (federationDomains : List FederationDomain)
    (apiError : String → Option String) (now : Nat) (d : FederationDomain) (u : ParsedURL)
    (_hd : d ∈ federationDomains) (hparse : d.parsedIssuer = some u)
    (hdup : 1 < issuerCount federationDomains (issuerURLToIssuerKey u)) :
    duplicateIssuerCondition ∈ computeConditions env federationDomains d ∧
      readyCondition (computeConditions env federationDomains d) d.issuer = notReadyCondition ∧
      publishContribution env federationDomains apiError now d = [] ∧
      (sync env federationDomains apiError now).published =
        federationDomains.flatMap (publishContribution env federationDomains apiError now) := by
  have hmem : duplicateIssuerCondition ∈ computeConditions env federationDomains d := by
    unfold computeConditions
    apply List.mem_append_left
    apply List.mem_append_left
    unfold crossDomainValidate
    rw [hparse]
    apply List.mem_append_left
    simp [hdup]
  have herr : hadErrorCondition (computeConditions env federationDomains d) = true :=
    hadErrorCondition_of_mem hmem (by decide)
  refine ⟨hmem, ?_, ?_, ?_⟩
  · rw [readyCondition, if_pos herr]
  · exact publishContribution_of_error env federationDomains apiError now d herr
  · rw [sync, syncDomains_published_eq]

/-- C3: For every reconcile and every group of FederationDomains whose parseable
`spec.issuer` URLs share the same lowercased host-without-port, if two of them
declare different `spec.tls.secretName` values then the condition
`OneTLSSecretPerIssuerHostname=False` (reason `DifferentSecretRefsFound`) is set
on every domain of that group. -/
theorem c3_inconsistent_tls_secrets_flag_whole_group
    (env : IdpEnv) (federationDomains : List FederationDomain)
    (d1 d2 : FederationDomain) (u1 u2 : ParsedURL) (s1 s2 : String)
    (hd1 : d1 ∈ federationDomains) (hd2 : d2 ∈ federationDomains)
    (hp1 : d1.parsedIssuer = some u1) (hp2 : d2.parsedIssuer = some u2)
    (hkey : issuerURLToHostnameKey u2 = issuerURLToHostnameKey u1)
    (ht1 : d1.tls = some s1) (ht2 : d2.tls = some s2) (hne : s1 ≠ s2) :
    ∀ d ∈ federationDomains, ∀ u : ParsedURL, d.parsedIssuer = some u →
      issuerURLToHostnameKey u = issuerURLToHostnameKey u1 →
      differentSecretRefsCondition ∈ computeConditions env federationDomains d := by
  intro d hd u hpu hku
  have hs1 : s1 ∈ secretNamesForIssuerAddress federationDomains (issuerURLToHostnameKey u1) := by
    unfold secretNamesForIssuerAddress
    rw [List.mem_dedup]
    apply List.mem_filterMap.mpr
    exact ⟨d1, hd1, by rw [hp1, ht1]; simp⟩
  have hs2 : s2 ∈ secretNamesForIssuerAddress federationDomains (issuerURLToHostnameKey u1) := by
    unfold secretNamesForIssuerAddress
    rw [List.mem_dedup]
    apply List.mem_filterMap.mpr
    exact ⟨d2, hd2, by rw [hp2, ht2]; simp [hkey]⟩
  have hlen : 1 <
      (secretNamesForIssuerAddress federationDomains (issuerURLToHostnameKey u1)).length :=
    one_lt_length_of_two_mem hs1 hs2 hne
  unfold computeConditions
  apply List.mem_append_left
  apply List.mem_append_left
  unfold crossDomainValidate
  rw [hpu]
  apply List.mem_append_right
  rw [hku]
  simp [hlen]

/-! Lemmas for the backwards-compatibility (legacy) identity provider mode. -/

theorem identityProvidersConditions_of_empty (env : IdpEnv) (d : FederationDomain)
    (hempty : d.identityProviders = []) :
    identityProvidersConditions env d = (legacyResolution env).2 ∧
      domainDefaultIDP env d = (legacyResolution env).1 := by
  unfold identityProvidersConditions domainDefaultIDP idpNotFoundIndices
  rw [hempty]
  simp

theorem legacyDefaultIDP_of_single (env : IdpEnv) (hcount : idpCRsCount env = 1) :
    ∃ r : IdpResource, allIdpResources env = [r] ∧
      legacyDefaultIDP env = { displayName := r.name, uid := r.uid, transforms := [] } := by
  unfold idpCRsCount at hcount
  unfold allIdpResources legacyDefaultIDP
  cases ho : env.oidcIdentityProviders with
  | cons x xs =>
      rw [ho] at hcount
      have hxs : xs.length = 0 := by simp at hcount; omega
      have hl : env.ldapIdentityProviders.length = 0 := by simp at hcount; omega
      have ha : env.activeDirectoryIdentityProviders.length = 0 := by simp at hcount; omega
      rw [List.length_eq_zero] at hxs hl ha
      refine ⟨x, ?_, ?_⟩
      · rw [hxs, hl, ha]; rfl
      · rw [hxs]
        simp [firstIdp]
  | nil =>
      rw [ho] at hcount
      simp at hcount
      cases hl : env.ldapIdentityProviders with
      | cons y ys =>
          rw [hl] at hcount
          have hys : ys.length = 0 := by simp at hcount; omega
          have ha : env.activeDirectoryIdentityProviders.length = 0 := by simp at hcount; omega
          rw [List.length_eq_zero] at hys ha
          refine ⟨y, ?_, ?_⟩
          · rw [hys, ha]; rfl
          · rw [hys]
            simp [firstIdp]
      | nil =>
          rw [hl] at hcount
          simp at hcount
          obtain ⟨z, hz⟩ := List.length_eq_one.mp hcount
          refine ⟨z, ?_, ?_⟩
          · rw [hz]; rfl
          · rw [hz]
            simp [firstIdp]

/-- C4: For every reconcile of a FederationDomain with empty
`spec.identityProviders`: with exactly one IdP custom resource of any type, that
IdP becomes the domain's default provider (displayName = the resource name, empty
pipeline) and `IdentityProvidersFound=True` with reason
`LegacyConfigurationSuccess` is set; with zero IdPs the condition is False with
reason `LegacyConfigurationIdentityProviderNotFound`; with two or more it is
False with reason `IdentityProviderNotSpecified`. -/
theorem c4_legacy_identity_provider_resolution
    (env : IdpEnv) (federationDomains : List FederationDomain) (d : FederationDomain)
    (hempty : d.identityProviders = []) :
    (idpCRsCount env = 1 →
      ∃ r : IdpResource, allIdpResources env = [r] ∧
        domainDefaultIDP env d = some { displayName := r.name, uid := r.uid, transforms := [] } ∧
        legacySuccessCondition r.name ∈ computeConditions env federationDomains d) ∧
    (idpCRsCount env = 0 →
      domainDefaultIDP env d = none ∧
      legacyNotFoundCondition ∈ computeConditions env federationDomains d) ∧
    (2 ≤ idpCRsCount env →
      domainDefaultIDP env d = none ∧
      identityProviderNotSpecifiedCondition (idpCRsCount env) ∈
        computeConditions env federationDomains d) := by
  obtain ⟨hconds, hdflt⟩ := identityProvidersConditions_of_empty env d hempty
  have hmemconds : ∀ c, c ∈ (legacyResolution env).2 →
      c ∈ computeConditions env federationDomains d := by
    intro c hc
    unfold computeConditions
    apply List.mem_append_left
    apply List.mem_append_right
    rw [hconds]
    exact hc
  refine ⟨?_, ?_, ?_⟩
  · intro hone
    obtain ⟨r, hall, hleg⟩ := legacyDefaultIDP_of_single env hone
    refine ⟨r, hall, ?_, ?_⟩
    · rw [hdflt]
      unfold legacyResolution
      rw [if_pos hone, hleg]
    · apply hmemconds
      unfold legacyResolution
      rw [if_pos hone, hleg]
      simp
  · intro hzero
    constructor
    · rw [hdflt]
      unfold legacyResolution
      rw [if_neg (by omega), if_neg (by omega)]
    · apply hmemconds
      unfold legacyResolution
      rw [if_neg (by omega), if_neg (by omega)]
      simp
  · intro hmany
    constructor
    · rw [hdflt]
      unfold legacyResolution
      rw [if_neg (by omega), if_pos (by omega)]
    · apply hmemconds
      unfold legacyResolution
      rw [if_neg (by omega), if_pos (by omega)]
      simp

/-! ## C5: transformation examples -/

def envC5 : IdpEnv :=
  { oidcIdentityProviders := [{ name := "my-oidc", namespaceName := "ns", uid := "uid1" }],
    ldapIdentityProviders := [], activeDirectoryIdentityProviders := [] }

/-- An example that expects rejection, attached to an empty (identity) pipeline:
the dry run allows the authentication, so the example fails. -/
def exampleC5 : TransformExample :=
  { username := "ryan", groups := ["a"],
    expects := { rejected := true, message := "", username := "", groups := [] } }

def refC5 : IdentityProviderRef :=
  { displayName := "my-oidc",
    objectRef := { kind := "OIDCIdentityProvider", name := "my-oidc" },
    transforms := { expressions := [], examples := [exampleC5] } }

def domainC5 : FederationDomain :=
  { name := "fd", namespaceName := "ns", generation := 1,
    issuer := "https://fd.example.com/iss",
    parsedIssuer := some { scheme := "https", host := "fd.example.com", path := "/iss" },
    tls := none, identityProviders := [refC5], status := { phase := "", conditions := [] } }

/-- C5 counterexample: a reconcile in which a transformation example fails its dry
run (a warning is logged), yet the computed status conditions are exactly the four
all-True standard conditions — no condition records the failure — and the domain
is loaded into the published set. This refutes the claim that each failing example
is recorded as a status condition on the FederationDomain. -/
theorem c5_counterexample :
    domainExampleWarnings domainC5 = [ExampleWarningKind.expectedRejectionButAllowed] ∧
      computeConditions envC5 [domainC5] domainC5 =
        [uniqueIssuerCondition, sameSecretRefCondition, idpRefsFoundCondition,
          validIssuerURLCondition] ∧
      hadErrorCondition (computeConditions envC5 [domainC5] domainC5) = false ∧
      (loadedIssuers envC5 [domainC5] domainC5).length = 1 :=
  ⟨rfl, rfl, rfl, rfl⟩

/-- C5 (amended): every example tuple is evaluated against the compiled pipeline
and each failing example is logged as a warning (not recorded as a status
condition); failing examples change nothing else about the reconcile — the
published set, the status writes and the returned errors are identical with all
examples removed. -/
theorem c5_examples_are_advisory :
    (∀ (pipeline : List CompiledTransform) (e : TransformExample),
        exampleWarnings pipeline e ≠ [] ↔ exampleFails pipeline e = true) ∧
    (∀ (env : IdpEnv) (federationDomains : List FederationDomain)
        (apiError : String → Option String) (now : Nat),
      (sync env federationDomains apiError now).warnings =
          federationDomains.flatMap domainExampleWarnings ∧
        (sync env (federationDomains.map eraseExamples) apiError now).published =
          (sync env federationDomains apiError now).published ∧
        (sync env (federationDomains.map eraseExamples) apiError now).statusCalls =
          (sync env federationDomains apiError now).statusCalls ∧
        (sync env (federationDomains.map eraseExamples) apiError now).errs =
          (sync env federationDomains apiError now).errs) := by
  constructor
  · exact exampleWarnings_ne_nil_iff
  · intro env federationDomains apiError now
    exact ⟨syncDomains_warnings_eq env federationDomains apiError now federationDomains,
      sync_eraseExamples env federationDomains apiError now⟩

/-! ## C6: the IdP chooser interstitial -/

theorem string_length_eq_zero_iff (s : String) : s.length = 0 ↔ s = "" := by
  constructor
  · intro h
    cases s with
    | mk data =>
        simp [String.length] at h
        simp [h]
  · intro h; simp [h]

theorem shouldShowIDPChooser_eq_true_iff (idpFinder : IDPFinderState)
    (idpNameQueryParamValue : String) (browserlessFlowRequested : Bool) :
    shouldShowIDPChooser idpFinder idpNameQueryParamValue browserlessFlowRequested = true ↔
      (idpNameQueryParamValue = "" ∧ browserlessFlowRequested = false ∧
        idpFinder.hasDefaultIDP = false ∧ 0 < idpFinder.idpCount) := by
  unfold shouldShowIDPChooser
  simp [Bool.and_eq_true, string_length_eq_zero_iff, and_assoc]

/-- C6 counterexample: a browser GET without `pinniped_idp_name` against a domain
with two IdPs and no default is 303-redirected to the chooser, but the query
string of the redirect is `r.Form.Encode()` — the parameters re-encoded sorted by
key — not the original query string: for the query `b=2&a=1` the redirect carries
`a=1&b=2`. This refutes "preserving the full query string unchanged". -/
theorem c6_counterexample :
    serveAuthorizeStep "https://example.com" { hasDefaultIDP := false, idpCount := 2 }
        { method := "GET", rawQuery := "b=2&a=1", usernameHeaders := [], passwordHeaders := [] } =
      AuthorizeStep.chooserRedirect "https://example.com/choose_identity_provider?a=1&b=2" 303 ∧
    "https://example.com/choose_identity_provider?a=1&b=2" ≠
      "https://example.com" ++ chooseIDPEndpointPath ++ "?" ++ "b=2&a=1" := by
  constructor
  · rfl
  · decide

/-- C6 (amended): the handler 303-redirects to the federation domain's
`choose_identity_provider` endpoint, carrying the request's form parameters
re-encoded by `url.Values.Encode` (sorted by key, so not necessarily the
byte-identical original query string), if and only if the four conditions hold:
no `pinniped_idp_name` param, browser-based flow, no default IdP, and at least
one configured IdP. -/
theorem c6_chooser_redirect_iff (downstreamIssuerURL : String)
    (idpFinder : IDPFinderState) (r : AuthorizeHTTPRequest) (hmethod : r.method = "GET") :
    serveAuthorizeStep downstreamIssuerURL idpFinder r =
        AuthorizeStep.chooserRedirect (downstreamIssuerURL ++ chooseIDPEndpointPath ++ "?" ++
          encodeValues (parseQueryPairs r.rawQuery)) 303 ↔
      (valuesGet (parseQueryPairs r.rawQuery) authorizeUpstreamIDPNameParamName = "" ∧
        requestedBrowserlessFlow r = false ∧
        idpFinder.hasDefaultIDP = false ∧
        0 < idpFinder.idpCount) := by
  unfold serveAuthorizeStep
  rw [hmethod]
  simp only [show (("GET" != "POST") && ("GET" != "GET")) = false from rfl,
    Bool.false_eq_true, reduceIte]
  by_cases hshow : shouldShowIDPChooser idpFinder
      (valuesGet (parseQueryPairs r.rawQuery) authorizeUpstreamIDPNameParamName)
      (requestedBrowserlessFlow r)
  · rw [if_pos hshow]
    simp only [true_iff]
    exact (shouldShowIDPChooser_eq_true_iff _ _ _).mp hshow
  · rw [if_neg hshow]
    constructor
    · intro h
      exact absurd h (by simp)
    · intro hconds
      exact absurd ((shouldShowIDPChooser_eq_true_iff _ _ _).mpr hconds) hshow

/-! ## C7: CSRF cookie handling -/

def genInputsC7 : GenInputs :=
  { form := [("prompt", "none"), ("scope", "openid")], requestedScopes := ["openid"],
    cookie := none, decodeCookie := fun _ => none, encodeCookie := fun v => v,
    authorizeResponseOK := true, generateValuesOK := true, encodeStateOK := true,
    cookieEncodeOK := true, genCSRF := "fresh-token", genNonce := "nonce-1",
    genPKCE := "pkce-1", upstreamDisplayName := "my-oidc", idpType := "oidc" }

/-- C7 counterexample: a browser-flow request with no inbound CSRF cookie whose
`prompt=none` + `scope=openid` check fires. The claim says a new cookie is then
set, but the handler returns the `login_required` error before
`addCSRFSetCookieHeader` runs, so no `Set-Cookie` header is written. -/
theorem c7_counterexample :
    readCSRFCookie genInputsC7 = "" ∧
      (generateUpstreamAuthorizeRequestState genInputsC7).result =
        .error .loginRequired ∧
      (generateUpstreamAuthorizeRequestState genInputsC7).setCookie = none :=
  ⟨rfl, rfl, rfl⟩

/-- C7 (amended): when `readCSRFCookie` recovers a non-empty token from the
inbound cookie, that token is carried in the upstream state param and no
`Set-Cookie` header is ever written (even on error paths); when it does not
(cookie absent, decode failure, or an empty decoded token) and the request
successfully produces the upstream redirect state, the freshly generated token is
used and a cookie with `HttpOnly`, `Secure`, `SameSite=Lax`, `Path=/` is written;
error responses (such as `login_required`) write no cookie; and a cookie that
fails to decode is treated exactly like an absent cookie, never surfaced as an
error. -/
theorem c7_csrf_cookie_reuse_and_set
    (i : GenInputs) :
    (readCSRFCookie i ≠ "" → (generateUpstreamAuthorizeRequestState i).setCookie = none) ∧
    (∀ st, (generateUpstreamAuthorizeRequestState i).result = .ok st →
      (readCSRFCookie i ≠ "" → st.stateParam.csrfToken = readCSRFCookie i) ∧
      (readCSRFCookie i = "" →
        st.stateParam.csrfToken = i.genCSRF ∧
        (generateUpstreamAuthorizeRequestState i).setCookie =
          some { name := csrfCookieName, value := i.encodeCookie i.genCSRF,
                 httpOnly := true, sameSite := "Lax", secure := true, path := "/" })) ∧
    (∀ v, i.decodeCookie v = none →
      generateUpstreamAuthorizeRequestState { i with cookie := some v } =
        generateUpstreamAuthorizeRequestState { i with cookie := none }) := by
  refine ⟨?_, ?_, ?_⟩
  · intro hk
    unfold generateUpstreamAuthorizeRequestState
    have hk' : (readCSRFCookie i != "") = true := by
      simp [bne_iff_ne]; exact hk
    by_cases h1 : i.authorizeResponseOK <;> by_cases h2 : i.generateValuesOK <;>
      by_cases h3 : i.encodeStateOK <;>
        by_cases hp : (valuesGet i.form promptParamName == promptParamNone &&
          scopeWasRequested i.requestedScopes scopeOpenID) = true <;>
          simp [h1, h2, h3, hp, hk, hk']
  · intro st hst
    constructor
    · intro hk
      have hk' : (readCSRFCookie i != "") = true := by
        simp [bne_iff_ne]; exact hk
      unfold generateUpstreamAuthorizeRequestState at hst
      by_cases h1 : i.authorizeResponseOK <;> by_cases h2 : i.generateValuesOK <;>
        by_cases h3 : i.encodeStateOK <;>
          by_cases hp : (valuesGet i.form promptParamName == promptParamNone &&
            scopeWasRequested i.requestedScopes scopeOpenID) = true <;>
            simp [h1, h2, h3, hp, hk, hk'] at hst <;>
            subst hst <;> rfl
    · intro hk
      have hk' : (readCSRFCookie i != "") = false := by
        simp [bne_iff_ne]; exact hk
      unfold generateUpstreamAuthorizeRequestState at hst ⊢
      by_cases h1 : i.authorizeResponseOK <;> by_cases h2 : i.generateValuesOK <;>
        by_cases h3 : i.encodeStateOK <;>
          by_cases hp : (valuesGet i.form promptParamName == promptParamNone &&
            scopeWasRequested i.requestedScopes scopeOpenID) = true <;>
            by_cases h4 : i.cookieEncodeOK <;>
              simp [h1, h2, h3, hp, h4, hk, hk'] at hst ⊢ <;>
              subst hst <;> simp
  · intro v hv
    have hr : readCSRFCookie { i with cookie := some v } = "" := by
      unfold readCSRFCookie
      simp [hv]
    have hr' : readCSRFCookie { i with cookie := none } = "" := rfl
    unfold generateUpstreamAuthorizeRequestState
    rw [hr, hr']

/-- C8: a browser-flow authorize request carrying `prompt=none` together with a
requested `openid` scope is never redirected to the upstream identity provider;
when the preceding steps succeed, the handler's outcome is exactly the
`login_required` error (rendered by `WriteAuthorizeError` as the 303 error
redirect to the client's `redirect_uri`). -/
theorem c8_prompt_none_login_required (i : GenInputs)
    (upstreamAuthorizeRedirectURL : UpstreamAuthorizeRequestState → String)
    (hprompt : valuesGet i.form promptParamName = promptParamNone)
    (hscope : scopeWasRequested i.requestedScopes scopeOpenID = true) :
    (∀ url, authorizeWithBrowser i upstreamAuthorizeRedirectURL ≠
      BrowserFlowOutcome.upstreamRedirect url) ∧
    (i.authorizeResponseOK = true → i.generateValuesOK = true → i.encodeStateOK = true →
      authorizeWithBrowser i upstreamAuthorizeRedirectURL =
        BrowserFlowOutcome.errorResponse .loginRequired) := by
  have hcond : (valuesGet i.form promptParamName == promptParamNone &&
      scopeWasRequested i.requestedScopes scopeOpenID) = true := by
    simp [hprompt, hscope]
  unfold authorizeWithBrowser generateUpstreamAuthorizeRequestState
  by_cases h1 : i.authorizeResponseOK <;> by_cases h2 : i.generateValuesOK <;>
    by_cases h3 : i.encodeStateOK <;> simp [h1, h2, h3, hcond]

/-- C9: status writes are idempotent. `updateStatus` performs no `UpdateStatus`
call exactly when the computed status (phase plus merged conditions, where the
merge keeps the observed `lastTransitionTime` whenever status/reason/message
match) equals the observed status; consequently, re-reconciling domains whose
statuses were just written — with no custom-resource change — performs no
`UpdateStatus` call and returns no error, at any later clock reading. -/
theorem c9_status_update_idempotent :
    (∀ (env : IdpEnv) (federationDomains : List FederationDomain)
        (d : FederationDomain) (now : Nat),
      updateStatusCall env federationDomains d now = none ↔
        computedStatus env federationDomains d now = d.status) ∧
    (∀ (env : IdpEnv) (federationDomains : List FederationDomain)
        (apiError : String → Option String) (now now' : Nat),
      (sync env (federationDomains.map (applyStatusUpdate env federationDomains now))
          apiError now').statusCalls = [] ∧
      (sync env (federationDomains.map (applyStatusUpdate env federationDomains now))
          apiError now').errs = []) := by
  constructor
  · intro env federationDomains d now
    unfold updateStatusCall
    by_cases h : computedStatus env federationDomains d now = d.status <;> simp [h]
  · intro env federationDomains apiError now now'
    constructor
    · rw [sync, syncDomains_statusCalls_eq]
      apply List.filterMap_eq_nil_iff.mpr
      intro d2 hd2
      obtain ⟨d, _, rfl⟩ := List.mem_map.mp hd2
      rw [updateStatusCall_applyStatusUpdate_eq_none]
    · rw [sync, syncDomains_errs_eq]
      apply List.filterMap_eq_nil_iff.mpr
      intro d2 hd2
      obtain ⟨d, _, rfl⟩ := List.mem_map.mp hd2
      rw [updateStatusCall_applyStatusUpdate_eq_none]

/-- C10: a failed status write excludes the domain from the published set (whatever
its conditions), while the controller keeps processing the other domains: the
published set is exactly the concatenation of the per-domain contributions, the
domains whose writes succeeded (or were skipped as no-ops) contribute their loaded
issuers, and the aggregated errors are exactly the failed writes, in order. -/
theorem c10_status_write_failure_excludes_domain
    (env : IdpEnv) (federationDomains : List FederationDomain)
    (apiError : String → Option String) (now : Nat) :
    (sync env federationDomains apiError now).published =
        federationDomains.flatMap (publishContribution env federationDomains apiError now) ∧
    (∀ d st e, updateStatusCall env federationDomains d now = some st →
      apiError d.name = some e →
      publishContribution env federationDomains apiError now d = []) ∧
    (∀ d st, updateStatusCall env federationDomains d now = some st →
      apiError d.name = none →
      publishContribution env federationDomains apiError now d =
        loadedIssuers env federationDomains d) ∧
    (∀ d, updateStatusCall env federationDomains d now = none →
      publishContribution env federationDomains apiError now d =
        loadedIssuers env federationDomains d) ∧
    (sync env federationDomains apiError now).errs =
      federationDomains.filterMap (fun d =>
        match updateStatusCall env federationDomains d now with
        | some _ => (apiError d.name).map (fun e => "could not update status: " ++ e)
        | none => none) ∧
    (sync env federationDomains apiError now).statusCalls =
      federationDomains.filterMap (fun d =>
        match updateStatusCall env federationDomains d now with
        | some st =>
            match apiError d.name with
            | some _ => none
            | none => some (d.name, st)
        | none => none) := by
  refine ⟨?_, ?_, ?_, ?_, ?_, ?_⟩
  · rw [sync, syncDomains_published_eq]
  · intro d st e hcall herr
    unfold publishContribution
    rw [hcall, herr]
  · intro d st hcall herr
    unfold publishContribution
    rw [hcall, herr]
  · intro d hcall
    unfold publishContribution
    rw [hcall]
  · rw [sync, syncDomains_errs_eq]
  · rw [sync, syncDomains_statusCalls_eq]

/-! ## Concrete witnesses -/

def wEnvC1 : IdpEnv :=
  { oidcIdentityProviders := [{ name := "my-oidc", namespaceName := "ns", uid := "uid1" }],
    ldapIdentityProviders := [], activeDirectoryIdentityProviders := [] }

def wDomC1 : FederationDomain :=
  { name := "fd", namespaceName := "ns", generation := 3,
    issuer := "https://fd.example.com/iss",
    parsedIssuer := some { scheme := "https", host := "fd.example.com", path := "/iss" },
    tls := none, identityProviders := [], status := { phase := "", conditions := [] } }

def wIssC1 : FederationDomainIssuer :=
  { issuer := "https://fd.example.com/iss",
    defaultIDP := some { displayName := "my-oidc", uid := "uid1", transforms := [] },
    identityProviders := [] }

theorem c1_witness :
    ∃ d ∈ [wDomC1], domainIssuerResult wEnvC1 d = .ok wIssC1 ∧
      ∀ c ∈ conditionsWithReady wEnvC1 [wDomC1] d, c.status = conditionTrue :=
  c1_published_issuers_have_all_true_conditions wEnvC1 [wDomC1] (fun _ => none) 5 wIssC1
    (by
      rw [show (sync wEnvC1 [wDomC1] (fun _ => none) 5).published = [wIssC1] from rfl]
      exact List.mem_singleton.mpr rfl)

def wEnvC2 : IdpEnv :=
  { oidcIdentityProviders := [{ name := "my-oidc", namespaceName := "ns", uid := "uid1" }],
    ldapIdentityProviders := [], activeDirectoryIdentityProviders := [] }

def wUC2 : ParsedURL := { scheme := "https", host := "dup.example.com", path := "/x" }

def wDomC2a : FederationDomain :=
  { name := "fd1", namespaceName := "ns", generation := 1,
    issuer := "https://dup.example.com/x", parsedIssuer := some wUC2, tls := none,
    identityProviders := [], status := { phase := "", conditions := [] } }

def wDomC2b : FederationDomain :=
  { name := "fd2", namespaceName := "ns", generation := 1,
    issuer := "https://dup.example.com/x", parsedIssuer := some wUC2, tls := none,
    identityProviders := [], status := { phase := "", conditions := [] } }

theorem c2_witness :
    duplicateIssuerCondition ∈ computeConditions wEnvC2 [wDomC2a, wDomC2b] wDomC2a ∧
      readyCondition (computeConditions wEnvC2 [wDomC2a, wDomC2b] wDomC2a) wDomC2a.issuer =
        notReadyCondition ∧
      publishContribution wEnvC2 [wDomC2a, wDomC2b] (fun _ => none) 5 wDomC2a = [] ∧
      (sync wEnvC2 [wDomC2a, wDomC2b] (fun _ => none) 5).published =
        [wDomC2a, wDomC2b].flatMap
          (publishContribution wEnvC2 [wDomC2a, wDomC2b] (fun _ => none) 5) :=
  c2_duplicate_issuer_not_published wEnvC2 [wDomC2a, wDomC2b] (fun _ => none) 5 wDomC2a wUC2
    (List.mem_cons_self _ _) rfl (by decide)

def wEnvC3 : IdpEnv :=
  { oidcIdentityProviders := [{ name := "my-oidc", namespaceName := "ns", uid := "uid1" }],
    ldapIdentityProviders := [], activeDirectoryIdentityProviders := [] }

def wUC3a : ParsedURL := { scheme := "https", host := "host.example.com", path := "/a" }

def wUC3b : ParsedURL := { scheme := "https", host := "HOST.example.com:8443", path := "/b" }

def wDomC3a : FederationDomain :=
  { name := "t1", namespaceName := "ns", generation := 1,
    issuer := "https://host.example.com/a", parsedIssuer := some wUC3a, tls := some "s1",
    identityProviders := [], status := { phase := "", conditions := [] } }

def wDomC3b : FederationDomain :=
  { name := "t2", namespaceName := "ns", generation := 1,
    issuer := "https://HOST.example.com:8443/b", parsedIssuer := some wUC3b, tls := some "s2",
    identityProviders := [], status := { phase := "", conditions := [] } }

theorem c3_witness :
    differentSecretRefsCondition ∈ computeConditions wEnvC3 [wDomC3a, wDomC3b] wDomC3a :=
  c3_inconsistent_tls_secrets_flag_whole_group wEnvC3 [wDomC3a, wDomC3b]
    wDomC3a wDomC3b wUC3a wUC3b "s1" "s2"
    (List.mem_cons_self _ _) (List.mem_cons_of_mem _ (List.mem_cons_self _ _))
    rfl rfl (by decide) rfl rfl (by decide)
    wDomC3a (List.mem_cons_self _ _) wUC3a rfl rfl

def wEnvC4 : IdpEnv :=
  { oidcIdentityProviders := [],
    ldapIdentityProviders := [{ name := "my-ldap", namespaceName := "ns", uid := "uid9" }],
    activeDirectoryIdentityProviders := [] }

def wDomC4 : FederationDomain :=
  { name := "fd", namespaceName := "ns", generation := 2,
    issuer := "https://fd.example.com/iss",
    parsedIssuer := some { scheme := "https", host := "fd.example.com", path := "/iss" },
    tls := none, identityProviders := [], status := { phase := "", conditions := [] } }

theorem c4_witness :
    ∃ r : IdpResource, allIdpResources wEnvC4 = [r] ∧
      domainDefaultIDP wEnvC4 wDomC4 =
        some { displayName := r.name, uid := r.uid, transforms := [] } ∧
      legacySuccessCondition r.name ∈ computeConditions wEnvC4 [wDomC4] wDomC4 :=
  (c4_legacy_identity_provider_resolution wEnvC4 [wDomC4] wDomC4 rfl).1 rfl

def wReqC6 : AuthorizeHTTPRequest :=
  { method := "GET", rawQuery := "scope=openid", usernameHeaders := [], passwordHeaders := [] }

theorem c6_witness :
    serveAuthorizeStep "https://issuer.example.com"
        { hasDefaultIDP := false, idpCount := 2 } wReqC6 =
      AuthorizeStep.chooserRedirect ("https://issuer.example.com" ++ chooseIDPEndpointPath ++
        "?" ++ encodeValues (parseQueryPairs wReqC6.rawQuery)) 303 :=
  (c6_chooser_redirect_iff "https://issuer.example.com"
      { hasDefaultIDP := false, idpCount := 2 } wReqC6 rfl).mpr
    ⟨rfl, rfl, rfl, by decide⟩

def wGenC7 : GenInputs :=
  { form := [("scope", "openid")], requestedScopes := ["openid"],
    cookie := some "encoded-cookie", decodeCookie := fun _ => some "cookie-token",
    encodeCookie := fun v => v, authorizeResponseOK := true, generateValuesOK := true,
    encodeStateOK := true, cookieEncodeOK := true, genCSRF := "fresh-token",
    genNonce := "nonce-1", genPKCE := "pkce-1", upstreamDisplayName := "my-oidc",
    idpType := "oidc" }

theorem c7_witness :
    (generateUpstreamAuthorizeRequestState wGenC7).setCookie = none :=
  (c7_csrf_cookie_reuse_and_set wGenC7).1 (by decide)

def wGenC8 : GenInputs :=
  { form := [("prompt", "none"), ("scope", "openid")], requestedScopes := ["openid"],
    cookie := none, decodeCookie := fun _ => none, encodeCookie := fun v => v,
    authorizeResponseOK := true, generateValuesOK := true, encodeStateOK := true,
    cookieEncodeOK := true, genCSRF := "fresh-token", genNonce := "nonce-1",
    genPKCE := "pkce-1", upstreamDisplayName := "my-oidc", idpType := "oidc" }

theorem c8_witness :
    authorizeWithBrowser wGenC8 (fun _ => "https://up.example.com/auth") =
      BrowserFlowOutcome.errorResponse .loginRequired :=
  (c8_prompt_none_login_required wGenC8 (fun _ => "https://up.example.com/auth")
    rfl rfl).2 rfl rfl rfl

def wEnvC10 : IdpEnv :=
  { oidcIdentityProviders := [{ name := "my-oidc", namespaceName := "ns", uid := "uid1" }],
    ldapIdentityProviders := [], activeDirectoryIdentityProviders := [] }

def wDomC10a : FederationDomain :=
  { name := "fd1", namespaceName := "ns", generation := 1,
    issuer := "https://one.example.com/a",
    parsedIssuer := some { scheme := "https", host := "one.example.com", path := "/a" },
    tls := none, identityProviders := [], status := { phase := "", conditions := [] } }

def wDomC10b : FederationDomain :=
  { name := "fd2", namespaceName := "ns", generation := 1,
    issuer := "https://two.example.com/b",
    parsedIssuer := some { scheme := "https", host := "two.example.com", path := "/b" },
    tls := none, identityProviders := [], status := { phase := "", conditions := [] } }

def wApiErrC10 : String → Option String :=
  fun n => if n = "fd1" then some "boom" else none

theorem c10_witness :
    hadErrorCondition (computeConditions wEnvC10 [wDomC10a, wDomC10b] wDomC10a) = false ∧
      publishContribution wEnvC10 [wDomC10a, wDomC10b] wApiErrC10 7 wDomC10a = [] ∧
      (sync wEnvC10 [wDomC10a, wDomC10b] wApiErrC10 7).errs =
        ["could not update status: boom"] :=
  ⟨by decide,
   (c10_status_write_failure_excludes_domain wEnvC10 [wDomC10a, wDomC10b] wApiErrC10 7).2.1
     wDomC10a (computedStatus wEnvC10 [wDomC10a, wDomC10b] wDomC10a 7) "boom" rfl rfl,
   ((c10_status_write_failure_excludes_domain wEnvC10 [wDomC10a, wDomC10b]
      wApiErrC10 7).2.2.2.2.1).trans (by decide)⟩

end Pinniped
